import Mathlib

/-!
Verification development for the `SessionExtractor` module
(`src/services/SessionExtractor.js`): a shallow embedding of the
document-to-schedule extraction pipeline, followed by theorems about the
claims of the specification.

Modelling conventions, used throughout:

* JS strings are Lean `String`s; regex scans are implemented as executable
  character-level functions that follow the JS regex semantics
  (leftmost match, alternation tried in written order, greedy quantifiers
  with the backtracking that is actually reachable for these patterns).
  String positions are character offsets; the source only meets ASCII/BMP
  text, where these coincide with JS UTF-16 offsets.
* JS `||` on strings/numbers is `jsOr` / `jsOrNat` (empty string and `0`
  are falsy, and a missing field is modelled by the falsy value when only
  its truthiness is ever observed).
* Calendar dates are integer day numbers (days since 1970-01-01, which was
  a Thursday); `toISOString().split('T')[0]` is an injective,
  order-preserving rendering of the day number, so ISO date strings are
  modelled by the day numbers themselves and the pipeline is modelled in
  UTC (local time = UTC).
* `Date.now()` is modelled by a `now : Nat` parameter that is threaded to
  every identifier-building site; "today" is a `today : Int` day-number
  parameter.
* Code that can raise a runtime error returns `Except JsError`.

An important fact about the source, used repeatedly below: the
`SessionExtractor` class body defines several methods twice
(`extractWeekDescription` at lines 588 and 1457, `extractWeekFocus` at 600
and 1467, `extractSessionFocus` at 873 and 1481, `capitalizeFirst` at 639
and 1328, `isHeaderLine` at 633 and 1332, `extractActivitiesFromSection`
at 394 and 819). In a JS class body the later definition overwrites the
earlier one on the prototype, so at runtime only the later definitions
exist. The later `extractWeekDescription`, `extractWeekFocus` and
`extractSessionFocus` expect an array of lines (they call `content.filter`
or `content.join`), while the structure-aware extraction paths pass a
plain string, which raises a TypeError (`content.filter is not a
function`). The embedding models the later (effective) definitions under
the source names and models each mismatched call site as an explicit
`JsError.typeError`.
-/

/-- JS runtime errors as observed by the extractor: a TypeError from calling
an array method on a string (or reading a property of `undefined`), a
generic thrown error carrying a message, and the rewrapped error produced
at the pipeline boundary. -/
inductive JsError where
  | typeError
  | jsError (msg : String)
  | platform (context : String) (inner : JsError)
deriving DecidableEq, Repr

/-- Modelled from the spec: `PlatformUtils.handlePlatformError` (the
`PlatformUtils` module is not under `src/`) rewraps an error with a tagged
context label before it is re-thrown at the pipeline boundary
(spec section 7, category (a)). -/
def handlePlatformError (e : JsError) (context : String) : JsError :=
  .platform context e

/-- JS `a || b` for strings: the empty string is falsy (and a missing
string field, also falsy, is modelled by the empty string). -/
def jsOr (a b : String) : String :=
  if a = "" then b else a

/-- JS `n || d` for non-negative numbers: `0` is falsy. -/
def jsOrNat (n d : Nat) : Nat :=
  if n = 0 then d else n

/-- JS `String.prototype.substring(a, b)`: clamps both endpoints to the
string bounds and swaps them when `a > b`. -/
def jsSubstring (s : String) (a b : Nat) : String :=
  let lo := min a b
  let hi := max a b
  (((s.toList.drop lo).take (hi - lo))).asString

/-- Character equality up to ASCII case, for regexes with the `i` flag. -/
def ciEq (a b : Char) : Bool :=
  a.toLower = b.toLower

/-- Exact character equality, for case-sensitive string operations. -/
def csEq (a b : Char) : Bool :=
  a = b

/-- Does `s` start with the pattern `pat`, comparing characters with `eq`? -/
def charsStartWith (eq : Char → Char → Bool) : List Char → List Char → Bool
  | [], _ => true
  | _ :: _, [] => false
  | p :: ps, c :: cs => eq p c && charsStartWith eq ps cs

/-- First index `≥ i` at which `pat` occurs in `s` (compared with `eq`),
scanning left to right as a JS regex or `indexOf` does. -/
def findFrom (eq : Char → Char → Bool) (pat : List Char) : List Char → Nat → Option Nat
  | [], i => if charsStartWith eq pat [] then some i else none
  | c :: cs, i =>
    if charsStartWith eq pat (c :: cs) then some i else findFrom eq pat cs (i + 1)

/-- JS `String.prototype.includes` (case sensitive). -/
def jsIncludes (s pat : String) : Bool :=
  (findFrom csEq pat.toList s.toList 0).isSome

/-- Case-insensitive substring test (`/pat/i.test(s)` for a literal pattern,
or `s.toLowerCase().includes(pat)` for a lowercase literal). -/
def ciContains (s pat : String) : Bool :=
  (findFrom ciEq pat.toList s.toList 0).isSome

/-- `String.prototype.toLowerCase`, character by character (structural, so
it evaluates definitionally; ASCII text makes this agree with JS). -/
def jsToLower (s : String) : String :=
  (s.toList.map Char.toLower).asString

/-- `String.prototype.trim` (whitespace stripped from both ends). -/
def jsTrim (s : String) : String :=
  (((s.toList.dropWhile Char.isWhitespace).reverse.dropWhile
    Char.isWhitespace).reverse).asString

/-- `String.prototype.startsWith`. -/
def jsStartsWith (s pre : String) : Bool :=
  charsStartWith csEq pre.toList s.toList

/-- `text.split('\n')`: every `\n` separates, empty pieces kept
(`''.split('\n')` is `['']`). -/
def splitLinesAux : List Char → List Char → List String
  | [], acc => [acc.reverse.asString]
  | c :: cs, acc =>
    if c = '\n' then acc.reverse.asString :: splitLinesAux cs []
    else splitLinesAux cs (c :: acc)

/-- `text.split('\n')`. -/
def splitLines (s : String) : List String :=
  splitLinesAux s.toList []

/-- A global JS regex scan, generically: `attempt` examines the text at the
current position and returns the captured value together with the match
length; on a match `lastIndex` advances past the match, otherwise the scan
moves one character forward. The fuel argument (initially the text length)
only serves termination; every step consumes at least one character. -/
def scanAll (attempt : List Char → Option (String × Nat)) :
    Nat → List Char → Nat → List (String × Nat)
  | 0, _, _ => []
  | _, [], _ => []
  | fuel + 1, s@(_ :: rest), i =>
    match attempt s with
    | some (cap, len) =>
      (cap, i) :: scanAll attempt fuel (s.drop (max len 1)) (i + max len 1)
    | none => scanAll attempt fuel rest (i + 1)

/-- All matches of a global regex over a string: list of (capture, index). -/
def scanAllS (attempt : List Char → Option (String × Nat)) (s : String) :
    List (String × Nat) :=
  scanAll attempt s.toList.length s.toList 0

/-- Leftmost match of a (non-global) regex: (capture, index). -/
def findFirstS (attempt : List Char → Option (String × Nat)) (s : String) :
    Option (String × Nat) :=
  (scanAllS attempt s).head?

/-- Leftmost match at a position `≥ i`, as a lookahead scan resumed at `i`. -/
def findFromPosS (attempt : List Char → Option (String × Nat)) (s : String)
    (i : Nat) : Option Nat :=
  ((scanAll attempt (s.toList.drop i).length (s.toList.drop i) i).head?).map
    (fun m => m.2)

/-- Try a regex alternation of literal words at the current position, in
written order, case-insensitively; the capture is the matched text of the
input (original case), as `match[0]`/`match[1]` would be. -/
def tryAlts (alts : List String) (s : List Char) : Option (String × Nat) :=
  match alts with
  | [] => none
  | a :: rest =>
    if charsStartWith ciEq a.toList s then
      some ((s.take a.length).asString, a.length)
    else tryAlts rest s

/-- Match `kw` (case-insensitively) followed by `\s*` and `\d+` at the
current position; returns (start of the digits, total match length).
`\s*` and `\d+` are greedy, and since a digit is neither whitespace nor a
keyword character no other backtracking candidate can succeed. -/
def attemptKwNum (kw : String) (s : List Char) : Option (Nat × Nat) :=
  if charsStartWith ciEq kw.toList s then
    let rest := s.drop kw.length
    let ws := rest.takeWhile (fun c => c.isWhitespace)
    let ds := (rest.drop ws.length).takeWhile (fun c => c.isDigit)
    if ds.isEmpty then none
    else some (kw.length + ws.length, kw.length + ws.length + ds.length)
  else none

/-- One step of `/day\s*(\d+)/gi`: the capture is the digit group
(`match[1]`), which is what the day-marker scan stores as `day`. -/
def attemptDayNum (s : List Char) : Option (String × Nat) :=
  (attemptKwNum "day" s).map
    (fun p => (((s.drop p.1).take (p.2 - p.1)).asString, p.2))

/-- One step of `/(session\s*\d+)/gi`: the capture is the whole match. -/
def attemptSessionNum (s : List Char) : Option (String × Nat) :=
  (attemptKwNum "session" s).map (fun p => ((s.take p.2).asString, p.2))

/-- One step of `` new RegExp(`week\\s*${n}`, 'gi') ``: `week`, optional
whitespace, then the decimal digits of `n` as a literal (no trailing word
boundary, exactly as in the source). The capture is the matched text. -/
def attemptWeekNum (n : Nat) (s : List Char) : Option (String × Nat) :=
  if charsStartWith ciEq "week".toList s then
    let rest := s.drop 4
    let ws := rest.takeWhile (fun c => c.isWhitespace)
    let ds := (toString n).toList
    if charsStartWith csEq ds (rest.drop ws.length) then
      some ((s.take (4 + ws.length + ds.length)).asString, 4 + ws.length + ds.length)
    else none
  else none

/-- One step of `/Week\s+(\d+)/gi` (the alternative-extraction scan): note
`\s+` requires at least one whitespace character; the capture is the digit
group. -/
def attemptWeekCap (s : List Char) : Option (String × Nat) :=
  if charsStartWith ciEq "week".toList s then
    let rest := s.drop 4
    let ws := rest.takeWhile (fun c => c.isWhitespace)
    if ws.isEmpty then none
    else
      let ds := (rest.drop ws.length).takeWhile (fun c => c.isDigit)
      if ds.isEmpty then none
      else some (ds.asString, 4 + ws.length + ds.length)
  else none

/-- Match `base` followed by an optional trailing `s` (greedy), case
insensitively, at the current position; returns the matched length. -/
def ciOptS (r : List Char) (base : String) : Option Nat :=
  if charsStartWith ciEq base.toList r then
    if charsStartWith ciEq ['s'] (r.drop base.length) then some (base.length + 1)
    else some base.length
  else none

/-- One step of `/(\d+)\s*(minutes?|mins?|hours?|hrs?)/i`: greedy digit run,
greedy whitespace run, then the unit alternation in written order. The
capture is the digit group (`match[1]`); the second component of the value
is whether the matched unit contains `hour`. -/
def attemptDuration (s : List Char) : Option (String × Nat) :=
  let ds := s.takeWhile (fun c => c.isDigit)
  if ds.isEmpty then none
  else
    let rest := s.drop ds.length
    let ws := rest.takeWhile (fun c => c.isWhitespace)
    let r2 := rest.drop ws.length
    let unitLen :=
      match ciOptS r2 "minute" with
      | some l => some l
      | none =>
        match ciOptS r2 "min" with
        | some l => some l
        | none =>
          match ciOptS r2 "hour" with
          | some l => some l
          | none => ciOptS r2 "hr"
    match unitLen with
    | some l => some (ds.asString, ds.length + ws.length + l)
    | none => none

/-- `parseInt` on a string of decimal digits. -/
def parseDigits (s : String) : Nat :=
  s.toList.foldl (fun acc c => acc * 10 + (c.toNat - 48)) 0

/-- `[A-Z]` under the `i` flag: any ASCII letter. -/
def isLetterAZ (c : Char) : Bool :=
  ('a' ≤ c.toLower && c.toLower ≤ 'z')

/-- Greedy search for the `[A-Z\s]+` run length in the academy pattern:
the largest `j ≥ 1` not exceeding the candidate run length such that the
keyword matches right after the first `j` characters of `rest`. -/
def findGreedyJ (rest : List Char) (kw : List Char) : Nat → Option Nat
  | 0 => none
  | j + 1 =>
    if charsStartWith ciEq kw (rest.drop (j + 1)) then some (j + 1)
    else findGreedyJ rest kw j

/-- One alternative of `/^([A-Z][A-Z\s]+ACADEMY|[A-Z][A-Z\s]+CLUB)/i` on a
line: a letter, then at least one letter-or-whitespace character (greedy,
with backtracking), then the keyword, all case-insensitively; returns the
captured prefix. -/
def academyAltMatch (keyword : String) (l : List Char) : Option String :=
  match l with
  | [] => none
  | c :: rest =>
    if isLetterAZ c then
      let run := rest.takeWhile (fun ch => isLetterAZ ch || ch.isWhitespace)
      (findGreedyJ rest keyword.toList run.length).map
        (fun j => ((c :: rest.take (j + keyword.length))).asString)
    else none

/-- The anchored academy pattern on one line: the first alternative
(`ACADEMY`) with full backtracking, then the second (`CLUB`). -/
def academyLineMatch (l : List Char) : Option String :=
  match academyAltMatch "academy" l with
  | some m => some m
  | none => academyAltMatch "club" l

/-- The academy-name loop of `extractAcademyInfo`: the capture of the first
line (of the first 20) matching the academy pattern, trimmed; empty string
when no line matches (the variable's initial value in the source). -/
def findAcademyInLines : List String → String
  | [] => ""
  | l :: ls =>
    match academyLineMatch l.toList with
    | some m => m.trim
    | none => findAcademyInLines ls

/-- One step of the age pattern
`/(\d+[-–]\d+\s*years?|under\s*\d+|u\d+|\d+\s*years?)/i`: the four
alternatives in written order; the capture is the whole matched text. -/
def attemptAge (s : List Char) : Option (String × Nat) :=
  let alt1 :=
    let d1 := s.takeWhile (fun c => c.isDigit)
    if d1.isEmpty then none
    else
      match s.drop d1.length with
      | dash :: r1 =>
        if dash = '-' || dash = '–' then
          let d2 := r1.takeWhile (fun c => c.isDigit)
          if d2.isEmpty then none
          else
            let ws := (r1.drop d2.length).takeWhile (fun c => c.isWhitespace)
            match ciOptS ((r1.drop d2.length).drop ws.length) "year" with
            | some l => some (d1.length + 1 + d2.length + ws.length + l)
            | none => none
        else none
      | [] => none
  match alt1 with
  | some len => some ((s.take len).asString, len)
  | none =>
    let alt2 :=
      if charsStartWith ciEq "under".toList s then
        let ws := (s.drop 5).takeWhile (fun c => c.isWhitespace)
        let d := ((s.drop 5).drop ws.length).takeWhile (fun c => c.isDigit)
        if d.isEmpty then none else some (5 + ws.length + d.length)
      else none
    match alt2 with
    | some len => some ((s.take len).asString, len)
    | none =>
      let alt3 :=
        if charsStartWith ciEq "u".toList s then
          let d := (s.drop 1).takeWhile (fun c => c.isDigit)
          if d.isEmpty then none else some (1 + d.length)
        else none
      match alt3 with
      | some len => some ((s.take len).asString, len)
      | none =>
        let d1 := s.takeWhile (fun c => c.isDigit)
        if d1.isEmpty then none
        else
          let ws := (s.drop d1.length).takeWhile (fun c => c.isWhitespace)
          match ciOptS ((s.drop d1.length).drop ws.length) "year" with
          | some l =>
            some ((s.take (d1.length + ws.length + l)).asString,
              d1.length + ws.length + l)
          | none => none

/-- First match of the sport pattern
`/(soccer|football|basketball|tennis|volleyball|swimming)/i`. -/
def sportScan (text : String) : Option String :=
  (findFirstS
    (tryAlts ["soccer", "football", "basketball", "tennis", "volleyball", "swimming"])
    text).map (fun m => m.1)

/-- First match of the age pattern over the whole text. -/
def ageScan (text : String) : Option String :=
  (findFirstS attemptAge text).map (fun m => m.1)

/-- The training-plan metadata record (`{id, title, category?, difficulty?,
academyName?}`); a missing/empty field is the falsy `""`. -/
structure TrainingPlan where
  id : String
  title : String
  category : String
  difficulty : String
  academyName : String
deriving DecidableEq, Repr

/-- A document handle; the pipeline only reads its `id`. -/
structure Document where
  id : String
deriving DecidableEq, Repr

/-- AcademyInfo (spec section 3). -/
structure AcademyInfo where
  academyName : String
  sport : String
  ageGroup : String
  program : String
  location : String
  difficulty : String
deriving DecidableEq, Repr

/-- One analyzer-reported week title with its character offset. -/
structure WeekTitle where
  number : Nat
  title : String
  position : Nat
deriving DecidableEq, Repr

/-- `weekStructure` of a StructureAnalysis. -/
structure WeekStructure where
  totalWeeks : Nat
  identifiedWeeks : List Nat
  weekTitles : List WeekTitle
deriving DecidableEq, Repr

/-- `dayStructure` of a StructureAnalysis; only `identifiedDays` is read by
the modelled paths. -/
structure DayStructure where
  identifiedDays : List String
deriving DecidableEq, Repr

/-- One entry of the analyzer's flat session list. -/
structure SessionDetail where
  text : String
  type : String
deriving DecidableEq, Repr

/-- `sessionStructure` of a StructureAnalysis. -/
structure SessionStructure where
  hasStructuredSessions : Bool
  totalSessions : Nat
  sessionDetails : List SessionDetail
deriving DecidableEq, Repr

/-- `durationAnalysis` of a StructureAnalysis; `averageDuration = 0` models
the absent/falsy value. -/
structure DurationAnalysis where
  hasDurationInfo : Bool
  averageDuration : Nat
deriving DecidableEq, Repr

/-- `organizationLevel` of a StructureAnalysis. -/
structure OrganizationLevel where
  level : String
  score : Nat
deriving DecidableEq, Repr

/-- The analyzer output shape consumed by the extractor (spec section 4.1).
`organizationLevel` is an `Option` because the malformed-shape scenarios
hinge on that property being missing entirely (reading `.level` of
`undefined` raises a TypeError); `documentType = ""` models its absence. -/
structure StructureAnalysis where
  organizationLevel : Option OrganizationLevel
  weekStructure : WeekStructure
  dayStructure : DayStructure
  sessionStructure : SessionStructure
  durationAnalysis : DurationAnalysis
  documentType : String
deriving DecidableEq, Repr

/-- A `drills` entry. The source stores heterogeneous values: plain strings
(`createBasicSession`), `{name, description}` records
(`extractDrillsFromSection`) and `{name, description, duration}` records
(the effective `extractDrills`). -/
inductive Drill where
  | plain (text : String)
  | named (name description : String)
  | timed (name description : String) (duration : Option Nat)
deriving DecidableEq, Repr

/-- A `weekSchedule` value of the `{days, pattern}` shape (the shape every
modelled builder actually produces; `none` models the absent field). -/
structure WeekSchedulePattern where
  days : List String
  pattern : String
deriving DecidableEq, Repr

/-- DailySession (spec section 3). Fields that some builders leave
`undefined` (`createSessionFromDetail` sets no drills, objectives,
equipment, notes, documentContent, completionRate, week or
weekDescription) are `Option`s. `date` is a day number (see the header). -/
structure DailySession where
  id : String
  weekNumber : Nat
  dayNumber : Nat
  title : String
  day : String
  date : Int
  time : String
  duration : Nat
  location : String
  type : String
  participants : Nat
  status : String
  academyName : String
  sport : String
  ageGroup : String
  difficulty : String
  activities : List String
  drills : Option (List Drill)
  objectives : Option (List String)
  equipment : Option (List String)
  notes : Option String
  rawContent : String
  documentContent : Option String
  completionRate : Option Nat
  focus : List String
  week : Option String
  weekDescription : Option String
deriving DecidableEq, Repr

/-- WeekSession (spec section 3); `notes`/`weekSchedule` are `Option`s
because two of the strategies do not set them. -/
structure WeekSession where
  id : String
  weekNumber : Nat
  title : String
  description : String
  dailySessions : List DailySession
  totalDuration : Nat
  focus : List String
  notes : Option (List String)
  academyName : String
  sport : String
  weekSchedule : Option WeekSchedulePattern
deriving DecidableEq, Repr

/-- ExtractionResult (spec section 3); the opaque optimized-schedule payload
is modelled as an optional string. -/
structure ExtractionResult where
  academyInfo : AcademyInfo
  sessions : List WeekSession
  optimizedSchedule : Option String
  structureAnalysis : StructureAnalysis
  totalWeeks : Nat
  totalSessions : Nat
  extractedAt : Nat
  sourceDocument : String
  sourcePlan : String
  aiEnhanced : Bool
  aiScheduled : Bool
  structureAware : Bool
deriving DecidableEq, Repr

/-- The flattened record built by `convertToUpcomingSessions`. -/
structure UpcomingSession where
  id : String
  title : String
  time : String
  duration : Nat
  date : Int
  location : String
  type : String
  participants : Nat
  status : String
  academyName : String
  sport : String
  ageGroup : String
  difficulty : String
  completionRate : Option Nat
  notes : Option String
  activities : List String
  drills : Option (List Drill)
  objectives : Option (List String)
  equipment : Option (List String)
  focus : List String
  weekNumber : Nat
  dayNumber : Nat
  rawContent : String
  sourceDocument : String
  sourcePlan : String
deriving DecidableEq, Repr

/-- `Date.prototype.getDay` under the day-number encoding: day 0
(1970-01-01) was a Thursday, so the weekday index (Sunday = 0 ..
Saturday = 6) of day `d` is `(d + 4) mod 7` (Euclidean). -/
def jsGetDay (d : Int) : Int :=
  (d + 4) % 7

/-- The weekday array of `calculateSessionDate`. -/
def sessionDayNames : List String :=
  ["sunday", "monday", "tuesday", "wednesday", "thursday", "friday", "saturday"]

/-- `Array.prototype.indexOf` over the weekday array applied to
`dayName.toLowerCase()`: −1 when absent, as in JS. -/
def dayIndexOf (dayName : String) : Int :=
  match sessionDayNames.findIdx? (fun d => d = jsToLower dayName) with
  | some i => (i : Int)
  | none => -1

/-- `calculateSessionDate(weekNumber, dayName)` (source lines 1590-1605):
anchor at today, step `(weekNumber-1)*7` days forward, then advance by
`(dayIndex - currentDay + 7) % 7` days. The `%` operand is non-negative
(dayIndex ≥ −1, currentDay ≤ 6), where JS `%` agrees with `Int.emod`. -/
def calculateSessionDate (today : Int) (weekNumber : Nat) (dayName : String) : Int :=
  let dayIndex := dayIndexOf dayName
  let target : Int := today + ((weekNumber : Int) - 1) * 7
  let currentDay := jsGetDay target
  let daysToAdd := (dayIndex - currentDay + 7) % 7
  target + daysToAdd

/-- `normalizeDayName`: expands three-letter abbreviations, otherwise
returns the lowercased text. -/
def normalizeDayName (dayText : String) : String :=
  let lower := jsToLower dayText
  match lower with
  | "mon" => "monday"
  | "tue" => "tuesday"
  | "wed" => "wednesday"
  | "thu" => "thursday"
  | "fri" => "friday"
  | "sat" => "saturday"
  | "sun" => "sunday"
  | _ => lower

/-- The effective `capitalizeFirst` (the later duplicate, line 1328): it
upcases the first character and keeps the rest unchanged; the earlier
shadowed duplicate also lowercased the tail. -/
def capitalizeFirst (str : String) : String :=
  match str.toList with
  | [] => ""
  | c :: cs => (c.toUpper :: cs).asString

/-- `estimateParticipants` (case-sensitive `includes` on the age group). -/
def estimateParticipants (ageGroup : String) : Nat :=
  if jsIncludes ageGroup "individual" || jsIncludes ageGroup "1-on-1" then 1
  else if jsIncludes ageGroup "small" || jsIncludes ageGroup "youth" then 12
  else 15

/-- `getBasicEquipment`: fixed map with the `general` fallback. -/
def getBasicEquipment (sport : String) : List String :=
  if sport = "soccer" then ["soccer balls", "cones", "goals", "bibs"]
  else if sport = "basketball" then ["basketballs", "hoops", "cones"]
  else if sport = "tennis" then ["tennis balls", "rackets", "net"]
  else ["cones", "markers", "equipment"]

/-- `generateDefaultFocus`: one focus tag chosen by `(weekNumber − 1)` mod
the rotation length. -/
def generateDefaultFocus (weekNumber : Nat) (sport : String) : List String :=
  let focuses :=
    if sport = "soccer" then ["ball control", "passing", "shooting", "defending"]
    else if sport = "basketball" then ["dribbling", "shooting", "defense", "teamwork"]
    else if sport = "tennis" then ["serves", "groundstrokes", "volleys", "strategy"]
    else ["technique", "fitness", "tactics", "teamwork"]
  [focuses.getD ((weekNumber - 1) % focuses.length) ""]

/-- `extractAcademyInfo` (source lines 1015-1073): header scan for the
academy pattern, whole-text sport and age scans, document-type program
label, then the `||` fallback chains to plan metadata and hard defaults.
All operations are total: the step can never throw. -/
def extractAcademyInfo (text : String) (trainingPlan : TrainingPlan)
    (structureAnalysis : Option StructureAnalysis) : AcademyInfo :=
  let lines := (splitLines text).take 20
  let academyName := findAcademyInLines lines
  let programFromType :=
    match structureAnalysis with
    | some sa =>
      if sa.documentType = "curriculum" then "Training Curriculum"
      else if sa.documentType = "weekly_schedule" then "Weekly Training Schedule"
      else ""
    | none => ""
  let sport :=
    match sportScan text with
    | some m => jsToLower m
    | none => ""
  let ageGroup :=
    match ageScan text with
    | some m => m
    | none => ""
  let program :=
    if programFromType = "" then
      match (lines.filter (fun line =>
        jsIncludes line "COACHING" || jsIncludes line "PLAN" ||
        jsIncludes line "PROGRAM")).head? with
      | some l => jsTrim l
      | none => ""
    else programFromType
  { academyName := jsOr academyName (jsOr trainingPlan.academyName
      (jsOr trainingPlan.title "Training Academy")),
    sport := jsOr sport (jsOr trainingPlan.category "soccer"),
    ageGroup := jsOr ageGroup "Youth",
    program := jsOr program (jsOr trainingPlan.title "Training Program"),
    location := "Training Facility",
    difficulty := jsOr trainingPlan.difficulty "intermediate" }

/-- `/^\d+\./` on a (trimmed) line: one or more digits then a dot. -/
def startsWithDigitsDot (t : String) : Bool :=
  let ds := t.toList.takeWhile (fun c => c.isDigit)
  !ds.isEmpty && charsStartWith csEq ['.'] (t.toList.drop ds.length)

/-- `/^[A-Z][a-z].*:/` on a trimmed line: an exact uppercase ASCII letter,
a lowercase one, then a colon anywhere later (lines carry no newline). -/
def titleWithColon (t : String) : Bool :=
  match t.toList with
  | c0 :: c1 :: rest =>
    ('A' ≤ c0 && c0 ≤ 'Z') && ('a' ≤ c1 && c1 ≤ 'z') &&
      (findFrom csEq [':'] rest 0).isSome
  | _ => false

/-- `/warm.*up|cool.*down/i`: the first keyword somewhere, then the second
keyword anywhere at or after its end (within the single line). -/
def seqKeywords (t : String) (first second : String) : Bool :=
  match findFrom ciEq first.toList t.toList 0 with
  | some p => (findFrom ciEq second.toList (t.toList.drop (p + first.length)) 0).isSome
  | none => false

/-- `isActivity` (source line 1486): the four activity patterns tested on
the trimmed line. -/
def isActivity (line : String) : Bool :=
  let t := jsTrim line
  startsWithDigitsDot t || titleWithColon t ||
    ciContains t "drill" || ciContains t "exercise" ||
    ciContains t "activity" || ciContains t "practice" ||
    seqKeywords t "warm" "up" || seqKeywords t "cool" "down"

/-- `isDrill` (source line 1497). -/
def isDrill (line : String) : Bool :=
  ciContains line "drill" || ciContains line "exercise" ||
    startsWithDigitsDot (jsTrim line)

/-- `isNote` (source line 1503): leading `*` on the raw line, or one of the
note keywords. -/
def isNote (line : String) : Bool :=
  jsStartsWith line "*" || ciContains line "note" || ciContains line "emphasize" ||
    ciContains line "encourage"

/-- `isObjective` (source line 1510). -/
def isObjective (line : String) : Bool :=
  ciContains line "focus" || ciContains line "objective" ||
    ciContains line "goal" || ciContains line "emphasize"

/-- `extractDrillName` (source line 1517): prefix before the first colon,
else the 30 characters after an early dot, else the first 30 characters. -/
def extractDrillName (line : String) : String :=
  let l := line.toList
  match findFrom csEq [':'] l 0 with
  | some colonIndex => jsTrim ((l.take colonIndex).asString)
  | none =>
    match findFrom csEq ['.'] l 0 with
    | some dotIndex =>
      if dotIndex < 50 then
        jsTrim (((l.drop (dotIndex + 1)).take
          (min l.length (dotIndex + 30) - (dotIndex + 1))).asString)
      else jsTrim ((l.take (min 30 l.length)).asString)
    | none => jsTrim ((l.take (min 30 l.length)).asString)

/-- `extractDrillDuration` (source line 1532): `parseInt(match[1])` of the
first duration-pattern match, else `null`. -/
def extractDrillDuration (line : String) : Option Nat :=
  (findFirstS attemptDuration line).map (fun m => parseDigits m.1)

/-- The effective `extractActivities` (source line 1402): array argument;
activity lines, trimmed, capped to 5. -/
def extractActivities (content : List String) : List String :=
  ((content.filter isActivity).map jsTrim).take 5

/-- The effective `extractDrills` (source line 1414): array argument; one
`{name, description, duration}` record per drill line (no cap). -/
def extractDrills (content : List String) : List Drill :=
  (content.filter isDrill).map
    (fun line => .timed (extractDrillName line) (jsTrim line) (extractDrillDuration line))

/-- The effective `extractObjectives` (source line 1431): array argument;
objective lines, trimmed, capped to 3. -/
def extractObjectives (content : List String) : List String :=
  ((content.filter isObjective).map jsTrim).take 3

/-- The effective `extractEquipment` (source line 1443): array argument;
the keywords found in the joined, lowercased text, in keyword order. -/
def extractEquipment (content : List String) : List String :=
  ["cones", "balls", "goals", "bibs", "ladders", "hurdles", "markers"].filter
    (fun kw => jsIncludes (jsToLower (String.intercalate " " content)) kw)

/-- `/^(week\s*\d+|session\s*\d+|day\s*\d+)/i` tested on a raw line (the
`weekPattern` of the constructor). -/
def weekPatternTest (line : String) : Bool :=
  (attemptKwNum "week" line.toList).isSome ||
    (attemptKwNum "session" line.toList).isSome ||
    (attemptKwNum "day" line.toList).isSome

/-- The effective `extractWeekDescription` (the later duplicate, source
line 1457): array argument; long non-header non-activity lines, first two
joined, truncated to 200 characters, with `'...'` always appended. The
earlier string-typed duplicate at line 588 is shadowed, so every call that
passes a string raises a TypeError at `content.filter`. -/
def extractWeekDescription (content : List String) : String :=
  let meaningful := content.filter (fun line =>
    line.length > 20 && !weekPatternTest line && !isActivity line)
  jsSubstring (String.intercalate " " (meaningful.take 2)) 0 200 ++ "..."

/-- The effective `extractWeekFocus` (the later duplicate, source line
1467): array argument; the six focus keywords found in the joined,
lowercased text, capped to 3. The earlier string-typed duplicate at line
600 is shadowed, so every call that passes a string raises a TypeError at
`content.join`. -/
def extractWeekFocus (content : List String) : List String :=
  (["shooting", "passing", "dribbling", "defending", "tactics", "fitness"].filter
    (fun kw => jsIncludes (jsToLower (String.intercalate " " content)) kw)).take 3

/-- Sum of the `duration` fields, i.e. the
`reduce((sum, s) => sum + s.duration, 0)` idiom. -/
def sumDurations (l : List DailySession) : Nat :=
  (l.map (fun s => s.duration)).sum

/-- `createBasicSession` (source lines 731-761): a fully populated default
session; every operation here is total. -/
def createBasicSession (today : Int) (now : Nat) (weekNumber dayNumber : Nat)
    (dayName : String) (ai : AcademyInfo) : DailySession :=
  { id := s!"session_{weekNumber}_{dayNumber}_basic_{now}",
    weekNumber := weekNumber,
    dayNumber := dayNumber,
    title := s!"{ai.academyName} - Week {weekNumber}, {capitalizeFirst dayName} Training",
    day := dayName,
    date := calculateSessionDate today weekNumber dayName,
    time := "08:00",
    duration := 90,
    location := jsOr ai.location "Training Field",
    type := "Team Training",
    participants := estimateParticipants ai.ageGroup,
    status := "scheduled",
    academyName := ai.academyName,
    sport := ai.sport,
    ageGroup := ai.ageGroup,
    difficulty := ai.difficulty,
    activities := [s!"{capitalizeFirst dayName} training activities"],
    drills := some [.plain s!"Basic {ai.sport} drills"],
    objectives := some [s!"Week {weekNumber} skill development"],
    equipment := some (getBasicEquipment ai.sport),
    notes := some s!"Standard {dayName} training session",
    rawContent := s!"Week {weekNumber} {dayName} training",
    documentContent := some s!"Training session for week {weekNumber}",
    completionRate := some 0,
    focus := generateDefaultFocus weekNumber ai.sport,
    week := some s!"Week {weekNumber}",
    weekDescription := some s!"Week {weekNumber} training focus" }

/-- `generateDefaultWeekSessions`: the canonical Monday/Wednesday/Friday
pattern. -/
def generateDefaultWeekSessions (today : Int) (now : Nat) (weekNumber : Nat)
    (ai : AcademyInfo) : List DailySession :=
  (["monday", "wednesday", "friday"].enum).map
    (fun p => createBasicSession today now weekNumber (p.1 + 1) p.2 ai)

/-- `extractFromUnstructuredDocument` (source lines 677-709, Strategy D',
the terminal fallback): four weeks of the default 3-day pattern. The
`totalDuration` is the literal `270` from the source (three 90-minute
sessions) and is never recomputed in this strategy. -/
def extractFromUnstructuredDocument (today : Int) (now : Nat) (_text : String)
    (_sa : StructureAnalysis) (ai : AcademyInfo) : List WeekSession :=
  (List.range' 1 4).map (fun weekNum =>
    { id := s!"week_{weekNum}_unstructured_{now}",
      weekNumber := weekNum,
      title := s!"Week {weekNum} Training Program",
      description := "Training program derived from document content",
      dailySessions := [createBasicSession today now weekNum 1 "monday" ai,
                        createBasicSession today now weekNum 2 "wednesday" ai,
                        createBasicSession today now weekNum 3 "friday" ai],
      totalDuration := 270,
      focus := generateDefaultFocus weekNum ai.sport,
      notes := none,
      academyName := ai.academyName,
      sport := ai.sport,
      weekSchedule := some { days := ["monday", "wednesday", "friday"],
                             pattern := "Standard 3-day week" } })

/-- `extractFromBasicStructuredDocument` (source lines 645-675, Strategy D):
`totalWeeks || 8` weeks of generated defaults, `totalDuration` recomputed
from the daily sessions. -/
def extractFromBasicStructuredDocument (today : Int) (now : Nat) (_text : String)
    (sa : StructureAnalysis) (ai : AcademyInfo) : List WeekSession :=
  let totalWeeks := jsOrNat sa.weekStructure.totalWeeks 8
  (List.range' 1 totalWeeks).map (fun weekNum =>
    let dailySessions := generateDefaultWeekSessions today now weekNum ai
    { id := s!"week_{weekNum}_basic_{now}",
      weekNumber := weekNum,
      title := s!"Week {weekNum} Training",
      description := s!"Training focus for week {weekNum}",
      dailySessions := dailySessions,
      totalDuration := sumDurations dailySessions,
      focus := generateDefaultFocus weekNum ai.sport,
      notes := none,
      academyName := ai.academyName,
      sport := ai.sport,
      weekSchedule := some { days := ["monday", "wednesday", "friday"],
                             pattern := "Three days per week" } })

/-- `mapSessionToDay`: the fixed rotation indexed by `dayNumber − 1`, with
`'monday'` for an out-of-range index (the `|| 'monday'` fallback). -/
def mapSessionToDay (dayNumber : Nat) : String :=
  ["monday", "wednesday", "friday", "tuesday", "thursday", "saturday",
    "sunday"].getD (dayNumber - 1) "monday"

/-- `createSessionFromDetail` (source lines 539-561): note the object
literal sets no drills, objectives, equipment, notes, documentContent,
completionRate, week or weekDescription fields. -/
def createSessionFromDetail (today : Int) (now : Nat) (sessionDetail : SessionDetail)
    (weekNumber dayNumber : Nat) (ai : AcademyInfo) : DailySession :=
  { id := s!"session_{weekNumber}_{dayNumber}_detail_{now}",
    weekNumber := weekNumber,
    dayNumber := dayNumber,
    title := s!"{ai.academyName} - {sessionDetail.text}",
    day := mapSessionToDay dayNumber,
    date := calculateSessionDate today weekNumber (mapSessionToDay dayNumber),
    time := "08:00",
    duration := 90,
    location := jsOr ai.location "Training Field",
    type := sessionDetail.type,
    participants := estimateParticipants ai.ageGroup,
    status := "scheduled",
    academyName := ai.academyName,
    sport := ai.sport,
    ageGroup := ai.ageGroup,
    difficulty := ai.difficulty,
    activities := [sessionDetail.text],
    drills := none,
    objectives := none,
    equipment := none,
    notes := none,
    rawContent := sessionDetail.text,
    documentContent := none,
    completionRate := none,
    focus := [sessionDetail.type],
    week := none,
    weekDescription := none }

/-- `[...new Set(xs)]`: deduplication keeping first occurrences, in
insertion order. -/
def jsSetDedup : List String → List String
  | [] => []
  | a :: as => a :: jsSetDedup (as.filter (fun x => x ≠ a))
termination_by l => l.length
decreasing_by
  simp only [List.length_cons]
  exact Nat.lt_succ_of_le (List.length_filter_le _ _)

/-- `deriveWeekFocusFromSessions`: flattened focus tags, deduplicated,
capped to 3. -/
def deriveWeekFocusFromSessions (sessions : List DailySession) : List String :=
  (jsSetDedup (sessions.flatMap (fun s => s.focus))).take 3

/-- `extractWithSessionStructure` (source lines 462-497, Strategy C):
`Math.ceil(totalSessions / 3)` synthetic weeks (`(n + 2) / 3` on `Nat`),
each taking the next slice of up to 3 `sessionDetails`. The slice is
`sessionDetails.slice(start, min(start + 3, totalSessions))`, clipped by
the actual list length as in JS. -/
def extractWithSessionStructure (today : Int) (now : Nat) (_text : String)
    (sa : StructureAnalysis) (ai : AcademyInfo) : List WeekSession :=
  let totalSessions := sa.sessionStructure.totalSessions
  let totalWeeks := (totalSessions + 2) / 3
  (List.range' 1 totalWeeks).map (fun weekNum =>
    let startIdx := (weekNum - 1) * 3
    let endIdx := min (startIdx + 3) totalSessions
    let weekSessions :=
      (((sa.sessionStructure.sessionDetails.drop startIdx).take (endIdx - startIdx)).enum).map
        (fun p => createSessionFromDetail today now p.2 weekNum (p.1 + 1) ai)
    { id := s!"week_{weekNum}_sessions_{now}",
      weekNumber := weekNum,
      title := s!"Week {weekNum} Training Sessions",
      description := s!"Training week with {weekSessions.length} structured sessions",
      dailySessions := weekSessions,
      totalDuration := sumDurations weekSessions,
      focus := deriveWeekFocusFromSessions weekSessions,
      notes := none,
      academyName := ai.academyName,
      sport := ai.sport,
      weekSchedule := none })

/-- Sequential effectful map: models a JS `forEach`/loop that pushes one
result per element and aborts at the first thrown error. -/
def mapE {α β : Type} (f : α → Except JsError β) : List α → Except JsError (List β)
  | [] => .ok []
  | a :: as =>
    match f a with
    | .error e => .error e
    | .ok b =>
      match mapE f as with
      | .error e => .error e
      | .ok bs => .ok (b :: bs)

/-- `findWeekTitle` (source lines 500-504): the first match of
`` `week\s*${n}[^\n]*` `` (the match itself plus the rest of its line; the
`\s*` may swallow newlines, so the tail starts after the match), else the
`Week ${n}` default. -/
def findWeekTitle (text : String) (weekNumber : Nat) : String :=
  match findFirstS (attemptWeekNum weekNumber) text with
  | none => s!"Week {weekNumber}"
  | some (cap, pos) =>
    (cap.toList ++
      ((text.toList.drop (pos + cap.length)).takeWhile (fun c => c ≠ '\n'))).asString

/-- `extractWeekContentByNumber` (source lines 506-514): window from the
first `week\s*${n}` occurrence to the first `week\s*${n+1}` occurrence
(searched from the start of the text, so possibly before the window start,
where `substring` swaps) or +500 characters, truncated to 200. -/
def extractWeekContentByNumber (text : String) (weekNumber : Nat) : String :=
  match findFirstS (attemptWeekNum weekNumber) text with
  | none => ""
  | some (_, weekStart) =>
    let endPos :=
      match findFirstS (attemptWeekNum (weekNumber + 1)) text with
      | none => weekStart + 500
      | some (_, p) => p
    jsSubstring (jsSubstring text weekStart endPos) 0 200

/-- `generateWeekDescription` (source lines 516-526): the 4-phase
progression cycle selected by `weekNumber % 4 || 4`. -/
def generateWeekDescription (weekNumber : Nat) (ai : AcademyInfo) : String :=
  let base :=
    match jsOrNat (weekNumber % 4) 4 with
    | 1 => "Foundation building and basic skill introduction"
    | 2 => "Skill development and coordination improvement"
    | 3 => "Technique refinement and tactical awareness"
    | _ => "Integration of skills in game situations"
  s!"{base} for {ai.sport} training"

/-- `generateWeekFocus` (source lines 528-537). -/
def generateWeekFocus (weekNumber : Nat) (sport : String) : List String :=
  let focuses :=
    if sport = "soccer" then ["ball control", "passing", "shooting", "defending"]
    else if sport = "basketball" then ["dribbling", "shooting", "defense", "teamwork"]
    else if sport = "tennis" then ["serves", "groundstrokes", "volleys", "strategy"]
    else ["technique", "fitness", "tactics", "teamwork"]
  [focuses.getD ((weekNumber - 1) % focuses.length) ""]

/-- `extractWeekFocusByNumber` (source lines 801-810): when the week
pattern does not match, the literal `['general training']`; when it does
match, the source calls `this.extractWeekFocus(weekMatch[0])` with a
String, and the effective `extractWeekFocus` (the later, array-typed
duplicate) immediately evaluates `content.join(' ')`, which does not exist
on strings — a TypeError. -/
def extractWeekFocusByNumber (text : String) (weekNumber : Nat) :
    Except JsError (List String) :=
  match findFirstS (attemptWeekNum weekNumber) text with
  | none => .ok ["general training"]
  | some _ => .error .typeError

/-- The weekday-name global scan `/(monday|...|sunday)/gi`. -/
def scanWeekdays (content : String) : List (String × Nat) :=
  scanAllS
    (tryAlts ["monday", "tuesday", "wednesday", "thursday", "friday",
      "saturday", "sunday"]) content

/-- `extractSessionsForSpecificWeek` (source lines 775-799): the lazy
window `` `week\s*${n}[\s\S]*?(?=week\s*${n+1}|$)` `` — from the week-`n`
match up to the first week-`n+1` occurrence at or after the match end, or
the end of text — scanned for weekday names; defaults when the window is
absent or holds no weekday. -/
def extractSessionsForSpecificWeek (today : Int) (now : Nat) (text : String)
    (weekNumber : Nat) (ai : AcademyInfo) : List DailySession :=
  match findFirstS (attemptWeekNum weekNumber) text with
  | none => generateDefaultWeekSessions today now weekNumber ai
  | some (cap, pos) =>
    let matchEnd := pos + cap.length
    let q :=
      match findFromPosS (attemptWeekNum (weekNumber + 1)) text matchEnd with
      | some p => p
      | none => text.length
    let weekContent := jsSubstring text pos q
    let days := (scanWeekdays weekContent).map (fun m => jsToLower m.1)
    if days.isEmpty then generateDefaultWeekSessions today now weekNumber ai
    else (days.enum).map
      (fun p => createBasicSession today now weekNumber (p.1 + 1) p.2 ai)

/-- One iteration of the `extractWithPartialWeekStructure` loop (Strategy
B, source lines 419-459). For an analyzer-identified week whose
`week\s*${n}` pattern also occurs in the text, the `focus` field raises a
TypeError (see `extractWeekFocusByNumber`); otherwise the week session is
assembled, with `totalDuration` recomputed from its daily sessions. -/
def buildPartialWeek (today : Int) (now : Nat) (text : String)
    (sa : StructureAnalysis) (ai : AcademyInfo) (weekNum : Nat) :
    Except JsError WeekSession :=
  let hasExplicitWeek := sa.weekStructure.identifiedWeeks.contains weekNum
  let focusE :=
    if hasExplicitWeek then extractWeekFocusByNumber text weekNum
    else .ok (generateWeekFocus weekNum ai.sport)
  match focusE with
  | .error e => .error e
  | .ok focus =>
    let dailySessions :=
      if hasExplicitWeek then extractSessionsForSpecificWeek today now text weekNum ai
      else generateDefaultWeekSessions today now weekNum ai
    .ok
      { id := s!"week_{weekNum}_partial_{now}",
        weekNumber := weekNum,
        title :=
          if hasExplicitWeek then findWeekTitle text weekNum
          else s!"Week {weekNum} Training",
        description :=
          if hasExplicitWeek then extractWeekContentByNumber text weekNum
          else generateWeekDescription weekNum ai,
        dailySessions := dailySessions,
        totalDuration := sumDurations dailySessions,
        focus := focus,
        notes := none,
        academyName := ai.academyName,
        sport := ai.sport,
        weekSchedule := none }

/-- `extractWithPartialWeekStructure` (Strategy B): weeks 1 through
`totalWeeks || 12` in order. -/
def extractWithPartialWeekStructure (today : Int) (now : Nat) (text : String)
    (sa : StructureAnalysis) (ai : AcademyInfo) : Except JsError (List WeekSession) :=
  let maxWeek := jsOrNat sa.weekStructure.totalWeeks 12
  mapE (buildPartialWeek today now text sa ai) (List.range' 1 maxWeek)

/-- A week section produced by `splitTextByWeeks`; `content` is a String
slice of the document. -/
structure WeekSection where
  weekNumber : Nat
  title : String
  content : String
  startPosition : Nat
  endPosition : Nat
deriving DecidableEq, Repr

/-- The section-building loop of `splitTextByWeeks`: each sorted title
spans from its own offset to the next title's offset (or end of text). -/
def sectionsOf (text : String) : List WeekTitle → List WeekSection
  | [] => []
  | [t] =>
    [{ weekNumber := t.number, title := t.title,
       content := jsSubstring text t.position text.length,
       startPosition := t.position, endPosition := text.length }]
  | t :: t2 :: rest =>
    { weekNumber := t.number, title := t.title,
      content := jsSubstring text t.position t2.position,
      startPosition := t.position, endPosition := t2.position } ::
      sectionsOf text (t2 :: rest)

/-- `splitTextByWeeks` (source lines 187-205): the analyzer's week titles,
stably sorted by position (JS `Array.prototype.sort` is stable), sliced
into sections. -/
def splitTextByWeeks (text : String) (weekStructure : WeekStructure) :
    List WeekSection :=
  sectionsOf text
    (List.insertionSort (fun a b => a.position ≤ b.position) weekStructure.weekTitles)

/-- One iteration of the `weekSections.forEach` in
`extractFromHighlyStructuredDocument` (source lines 139-162). The object
literal evaluates `id`, `weekNumber` (taken from
`identifiedWeeks[weekIndex] || weekIndex + 1`) and `title`, and then
`description: this.extractWeekDescription(weekSection.content)`.
`weekSection.content` is a String, but the effective
`extractWeekDescription` (the later, array-typed duplicate) begins with
`content.filter(...)`, which does not exist on strings, so every iteration
raises a TypeError before the week session (or any daily session) is
produced. -/
def strategyAWeekBuild (_sa : StructureAnalysis) (_ai : AcademyInfo)
    (_weekIndex : Nat) (_weekSection : WeekSection) : Except JsError WeekSession :=
  .error .typeError

/-- `extractFromHighlyStructuredDocument` (Strategy A): splits the text by
the analyzer's week titles and runs the per-section builder. With no week
titles the loop body never runs and the (empty) `sessions` array is
returned; with at least one section the first iteration throws (see
`strategyAWeekBuild`). -/
def extractFromHighlyStructuredDocument (today : Int) (now : Nat) (text : String)
    (sa : StructureAnalysis) (ai : AcademyInfo) : Except JsError (List WeekSession) :=
  let _ := today
  let _ := now
  let weekSections := splitTextByWeeks text sa.weekStructure
  mapE (fun p => strategyAWeekBuild sa ai p.1 p.2) weekSections.enum

/-- `createStructuredDailySession` (source lines 252-288), as called per
day marker by `extractDailySessionsFromWeekSection`. The object literal
evaluates its fields in order and reaches
`focus: this.extractSessionFocus(content, dayInfo)`; the effective
`extractSessionFocus` (the later duplicate, source line 1481) forwards the
String `content` to the effective array-typed `extractWeekFocus`, whose
`content.join(' ')` raises a TypeError. So this builder always throws. -/
def createStructuredDailySession (_dayInfo : String × Nat) (_weekNumber _dayIndex : Nat)
    (_ai : AcademyInfo) (_content : String) (_da : DurationAnalysis) :
    Except JsError DailySession :=
  .error .typeError

/-- `extractDailySessionsFromWeekSection` (source lines 207-250): the
three-pattern day-marker scan over the section content (all matches of the
weekday pattern, then of `day\s*(\d+)`, then of `(session\s*\d+)`, in that
pattern order), one structured daily session per marker, and the
general-week fallback when no marker is found. The fallback call
`createGeneralWeekSession(weekSection, weekNumber, academyInfo)` passes
the section, whose `content` is a String; `createGeneralWeekSession`
evaluates `activities: this.extractActivities(week.content)` and
`extractActivities` iterates `content.forEach(...)`, which does not exist
on strings — a TypeError. -/
def extractDailySessionsFromWeekSection (weekSection : WeekSection)
    (weekNumber : Nat) (ai : AcademyInfo) (da : DurationAnalysis) :
    Except JsError (List DailySession) :=
  let content := weekSection.content
  let foundDays :=
    scanWeekdays content ++ scanAllS attemptDayNum content ++
      scanAllS attemptSessionNum content
  match mapE
      (fun p => createStructuredDailySession p.2 weekNumber (p.1 + 1) ai content da)
      foundDays.enum with
  | .error e => .error e
  | .ok dailySessions =>
    if dailySessions.isEmpty then .error .typeError
    else .ok dailySessions

/-- The week record consumed by `createGeneralWeekSession` on its intended
(array-shaped) path: the function reads only `title` and `content`. -/
structure ParsedWeek where
  title : String
  content : List String
deriving DecidableEq, Repr

/-- `createGeneralWeekSession(week, weekIndex, academyInfo)` (source lines
1262-1294) on its intended array-shaped input. Note the second parameter
is a 0-based `weekIndex`: the session's `weekNumber` is `weekIndex + 1`,
so a caller that passes a 1-based week number (as
`extractDailySessionsFromWeekSection` does) would label the session with
the following week's number. -/
def createGeneralWeekSession (today : Int) (now : Nat) (week : ParsedWeek)
    (weekIndex : Nat) (ai : AcademyInfo) : DailySession :=
  { id := s!"session_{weekIndex + 1}_general_{now}",
    weekNumber := weekIndex + 1,
    dayNumber := 1,
    title := s!"{ai.academyName} - Week {weekIndex + 1} Training Plan",
    day := "week_plan",
    date := calculateSessionDate today (weekIndex + 1) "monday",
    time := "08:00",
    duration := 120,
    location := jsOr ai.location "Training Field",
    type := "Weekly Plan",
    participants := estimateParticipants ai.ageGroup,
    status := "scheduled",
    academyName := ai.academyName,
    sport := ai.sport,
    ageGroup := ai.ageGroup,
    difficulty := ai.difficulty,
    activities := extractActivities week.content,
    drills := some (extractDrills week.content),
    objectives := some (extractObjectives week.content),
    equipment := some (extractEquipment week.content),
    notes := some (String.intercalate "\n" week.content),
    rawContent := String.intercalate "\n" week.content,
    documentContent := some (String.intercalate "\n" week.content),
    completionRate := some 0,
    focus := extractWeekFocus week.content,
    week := some (jsOr week.title s!"Week {weekIndex + 1}"),
    weekDescription := some (extractWeekDescription week.content) }

/-- `extractFromModeratelyStructuredDocument` (source lines 168-184):
weeks first, then structured sessions, then the basic fallback. -/
def extractFromModeratelyStructuredDocument (today : Int) (now : Nat)
    (text : String) (sa : StructureAnalysis) (ai : AcademyInfo) :
    Except JsError (List WeekSession) :=
  if sa.weekStructure.totalWeeks > 0 then
    extractWithPartialWeekStructure today now text sa ai
  else if sa.sessionStructure.hasStructuredSessions then
    .ok (extractWithSessionStructure today now text sa ai)
  else
    .ok (extractFromBasicStructuredDocument today now text sa ai)

/-- `extractSessionsWithStructureAwareness` (the Strategy Dispatcher,
source lines 108-127): the destructuring switch on
`organizationLevel.level`. When `organizationLevel` is missing from the
analyzer's shape, reading `.level` of `undefined` raises a TypeError. -/
def extractSessionsWithStructureAwareness (today : Int) (now : Nat) (text : String)
    (sa : StructureAnalysis) (ai : AcademyInfo) : Except JsError (List WeekSession) :=
  match sa.organizationLevel with
  | none => .error .typeError
  | some ol =>
    if ol.level = "highly_structured" then
      extractFromHighlyStructuredDocument today now text sa ai
    else if ol.level = "moderately_structured" then
      extractFromModeratelyStructuredDocument today now text sa ai
    else if ol.level = "basic_structure" then
      .ok (extractFromBasicStructuredDocument today now text sa ai)
    else
      .ok (extractFromUnstructuredDocument today now text sa ai)

/-- The four extraction strategies (plus the terminal fallback) that the
dispatcher can select. -/
inductive Strategy where
  | highlyStructured
  | partialWeek
  | sessionGrouping
  | basicStructure
  | unstructured
deriving DecidableEq, Repr

/-- The Strategy Dispatcher as a selection function: the switch of
`extractSessionsWithStructureAwareness` on `organizationLevel.level`
combined with the weeks/sessions/basic branch of
`extractFromModeratelyStructuredDocument`. Reading `.level` of a missing
`organizationLevel` raises a TypeError, as in the source. -/
def selectStrategy (sa : StructureAnalysis) : Except JsError Strategy :=
  match sa.organizationLevel with
  | none => .error .typeError
  | some ol =>
    if ol.level = "highly_structured" then .ok .highlyStructured
    else if ol.level = "moderately_structured" then
      (if sa.weekStructure.totalWeeks > 0 then .ok .partialWeek
       else if sa.sessionStructure.hasStructuredSessions then .ok .sessionGrouping
       else .ok .basicStructure)
    else if ol.level = "basic_structure" then .ok .basicStructure
    else .ok .unstructured

/-- The dispatcher runs exactly the strategy it selects (links
`selectStrategy` to the dispatching code it summarizes). -/
theorem dispatch_runs_selected_strategy (today : Int) (now : Nat) (text : String)
    (sa : StructureAnalysis) (ai : AcademyInfo) :
    extractSessionsWithStructureAwareness today now text sa ai =
      match selectStrategy sa with
      | .error e => .error e
      | .ok .highlyStructured => extractFromHighlyStructuredDocument today now text sa ai
      | .ok .partialWeek => extractWithPartialWeekStructure today now text sa ai
      | .ok .sessionGrouping => .ok (extractWithSessionStructure today now text sa ai)
      | .ok .basicStructure => .ok (extractFromBasicStructuredDocument today now text sa ai)
      | .ok .unstructured => .ok (extractFromUnstructuredDocument today now text sa ai) := by
  unfold extractSessionsWithStructureAwareness selectStrategy
    extractFromModeratelyStructuredDocument
  cases sa.organizationLevel with
  | none => rfl
  | some ol =>
    by_cases h1 : ol.level = "highly_structured" <;>
      by_cases h2 : ol.level = "moderately_structured" <;>
        by_cases h3 : ol.level = "basic_structure" <;>
          simp [h1, h2, h3] <;>
            by_cases h4 : sa.weekStructure.totalWeeks > 0 <;>
              by_cases h5 : sa.sessionStructure.hasStructuredSessions <;>
                simp [h4, h5]

/-- `attemptAlternativeWeekExtraction` (source lines 1149-1218): scans
`/Week\s+(\d+)/gi` over the whole text, slices the text between
consecutive matches, and builds one week (hard-coded `totalDuration` 120)
holding exactly one general `week_plan` session (duration 120). Every line
classifier here receives the `[weekText]` array, so this path is total. -/
def attemptAlternativeWeekExtraction (today : Int) (now : Nat) (text : String)
    (ai : AcademyInfo) : List WeekSession :=
  let ms := scanAllS attemptWeekCap text
  (ms.enum).map (fun p =>
    let weekNumber := parseDigits p.2.1
    let idx := p.2.2
    let nextIdx :=
      match ms.get? (p.1 + 1) with
      | some m => m.2
      | none => text.length
    let weekText := jsSubstring text idx nextIdx
    let generalSession : DailySession :=
      { id := s!"session_{weekNumber}_alt_{now}",
        weekNumber := weekNumber,
        dayNumber := 1,
        title := s!"{ai.academyName} - Week {weekNumber} Training Plan",
        day := "week_plan",
        date := calculateSessionDate today weekNumber "monday",
        time := "08:00",
        duration := 120,
        location := jsOr ai.location "Training Field",
        type := "Weekly Plan",
        participants := estimateParticipants ai.ageGroup,
        status := "scheduled",
        academyName := ai.academyName,
        sport := ai.sport,
        ageGroup := ai.ageGroup,
        difficulty := ai.difficulty,
        activities := extractActivities [weekText],
        drills := some (extractDrills [weekText]),
        objectives := some (extractObjectives [weekText]),
        equipment := some (extractEquipment [weekText]),
        notes := some weekText,
        rawContent := weekText,
        documentContent := some (jsSubstring weekText 0 1000),
        completionRate := some 0,
        focus := extractWeekFocus [weekText],
        week := some s!"Week {weekNumber}",
        weekDescription := some (jsSubstring weekText 0 200) }
    { id := s!"week_{weekNumber}_alt_{now}",
      weekNumber := weekNumber,
      title := s!"Week {weekNumber} Training",
      description := extractWeekDescription [weekText],
      dailySessions := [generalSession],
      totalDuration := 120,
      focus := extractWeekFocus [weekText],
      notes := some [],
      academyName := ai.academyName,
      sport := ai.sport,
      weekSchedule := some { days := [], pattern := "Weekly training" } })

/-- `extractSessionsFromDocument` (source lines 30-105), the pipeline entry
point. The external collaborators are parameters, per the spec's
boundaries (sections 2, 4.1 and 6): the `DocumentProcessor` text
extraction (`textRes`), the structure analysis, the `AIService` session
enhancement and the `AIService` schedule generation. The two `AIService`
calls sit in their own local `try`/`catch` blocks and fall back to the
baseline on failure, while everything else runs under the single outer
`try` whose `catch` rewraps the error with the
`'Enhanced Session Extraction'` context and re-throws it. `aiEnhanced` is
the source's `enhancedSessions !== sessions` reference comparison, which
is true exactly when the enhancement call succeeded (and returned a fresh
array, as an enhancer does). -/
def extractSessionsFromDocument (today : Int) (now : Nat) (document : Document)
    (trainingPlan : TrainingPlan) (textRes : Except JsError String)
    (analyzeDocumentStructure : String → Except JsError StructureAnalysis)
    (enhanceExtractedSessions : List WeekSession → Except JsError (List WeekSession))
    (generateOptimalSchedule : Except JsError (Option String)) :
    Except JsError ExtractionResult :=
  let body : Except JsError ExtractionResult :=
    match textRes with
    | .error e => .error e
    | .ok text =>
      match analyzeDocumentStructure text with
      | .error e => .error e
      | .ok structureAnalysis =>
        let academyInfo := extractAcademyInfo text trainingPlan (some structureAnalysis)
        match extractSessionsWithStructureAwareness today now text structureAnalysis
            academyInfo with
        | .error e => .error e
        | .ok sessions =>
          let enhanced := enhanceExtractedSessions sessions
          let enhancedSessions :=
            match enhanced with
            | .ok es => es
            | .error _ => sessions
          let optimizedSchedule :=
            match generateOptimalSchedule with
            | .ok s => s
            | .error _ => none
          .ok
            { academyInfo := academyInfo,
              sessions := enhancedSessions,
              optimizedSchedule := optimizedSchedule,
              structureAnalysis := structureAnalysis,
              totalWeeks := enhancedSessions.length,
              totalSessions := (enhancedSessions.map
                (fun w => w.dailySessions.length)).sum,
              extractedAt := now,
              sourceDocument := document.id,
              sourcePlan := trainingPlan.id,
              aiEnhanced := enhanced.isOk,
              aiScheduled := optimizedSchedule.isSome,
              structureAware := true }
  match body with
  | .error e => .error (handlePlatformError e "Enhanced Session Extraction")
  | .ok r => .ok r

/-- The per-session conversion step of `convertToUpcomingSessions`: the
`date` is recomputed by `calculateSessionDate(week.weekNumber, session.day)`
rather than copied from `session.date`. -/
def toUpcomingSession (today : Int) (extractedData : ExtractionResult)
    (week : WeekSession) (session : DailySession) : UpcomingSession :=
  { id := session.id,
    title := session.title,
    time := session.time,
    duration := session.duration,
    date := calculateSessionDate today week.weekNumber session.day,
    location := session.location,
    type := session.type,
    participants := session.participants,
    status := session.status,
    academyName := session.academyName,
    sport := session.sport,
    ageGroup := session.ageGroup,
    difficulty := session.difficulty,
    completionRate := session.completionRate,
    notes := session.notes,
    activities := session.activities,
    drills := session.drills,
    objectives := session.objectives,
    equipment := session.equipment,
    focus := session.focus,
    weekNumber := week.weekNumber,
    dayNumber := session.dayNumber,
    rawContent := session.rawContent,
    sourceDocument := extractedData.sourceDocument,
    sourcePlan := extractedData.sourcePlan }

/-- `convertToUpcomingSessions` (source lines 1548-1588): one entry pushed
per daily session of every week, then an ascending stable sort by `date`
(the comparator `new Date(a.date) - new Date(b.date)` compares the day
numbers; JS `Array.prototype.sort` is stable, and the structural
`insertionSort` used here places earlier-input elements first among ties,
matching that). -/
def convertToUpcomingSessions (today : Int) (extractedData : ExtractionResult) :
    List UpcomingSession :=
  (extractedData.sessions.flatMap (fun week =>
    week.dailySessions.map (toUpcomingSession today extractedData week))).insertionSort
    (fun a b => a.date ≤ b.date)

/-! ## Supporting lemmas -/

theorem mapE_ok_forall₂ {α β : Type} {f : α → Except JsError β} :
    ∀ {l : List α} {l' : List β}, mapE f l = .ok l' →
      List.Forall₂ (fun a b => f a = .ok b) l l' := by
  intro l
  induction l with
  | nil =>
    intro l' h
    simp only [mapE, Except.ok.injEq] at h
    subst h
    exact List.Forall₂.nil
  | cons a as ih =>
    intro l' h
    simp only [mapE] at h
    cases hfa : f a with
    | error e => rw [hfa] at h; exact absurd h (by simp)
    | ok b =>
      rw [hfa] at h
      cases hrest : mapE f as with
      | error e => rw [hrest] at h; exact absurd h (by simp)
      | ok bs =>
        rw [hrest] at h
        obtain rfl : b :: bs = l' := by simpa using h
        exact List.Forall₂.cons hfa (ih hrest)

theorem forall₂_mem_right {α β : Type} {R : α → β → Prop} :
    ∀ {l : List α} {l' : List β}, List.Forall₂ R l l' → ∀ b ∈ l', ∃ a ∈ l, R a b := by
  intro l l' h
  induction h with
  | nil => intro b hb; exact absurd hb (by simp)
  | cons h₁ _ ih =>
    intro b hb
    rcases List.mem_cons.mp hb with rfl | hb'
    · exact ⟨_, List.mem_cons_self _ _, h₁⟩
    · obtain ⟨a, ha, hR⟩ := ih b hb'
      exact ⟨a, List.mem_cons_of_mem _ ha, hR⟩

theorem map_weekNumber_of_forall₂ {R : Nat → WeekSession → Prop} {ns : List Nat}
    {l : List WeekSession} (hR : ∀ n w, R n w → w.weekNumber = n)
    (h : List.Forall₂ R ns l) : l.map (fun w => w.weekNumber) = ns := by
  induction h with
  | nil => rfl
  | cons h₁ _ ih => simp only [List.map_cons, ih, hR _ _ h₁]

theorem chain'_weekNumber_of_map_range' :
    ∀ {l : List WeekSession} {s n : Nat},
      l.map (fun w => w.weekNumber) = List.range' s n →
      List.Chain' (fun a b => a.weekNumber < b.weekNumber) l := by
  intro l
  induction l with
  | nil => intro s n _; exact List.chain'_nil
  | cons a as ih =>
    intro s n h
    cases n with
    | zero => simp [List.range'] at h
    | succ m =>
      rw [show List.range' s (m + 1) = s :: List.range' (s + 1) m from rfl] at h
      simp only [List.map_cons, List.cons.injEq] at h
      obtain ⟨ha, hrest⟩ := h
      rw [List.chain'_cons']
      refine ⟨?_, ih hrest⟩
      intro b hb
      cases as with
      | nil => simp at hb
      | cons a2 as2 =>
        cases m with
        | zero => simp [List.range'] at hrest
        | succ m2 =>
          rw [show List.range' (s + 1) (m2 + 1) = (s + 1) :: List.range' (s + 2) m2
            from rfl] at hrest
          simp only [List.map_cons, List.cons.injEq] at hrest
          simp only [List.head?_cons, Option.mem_def, Option.some.injEq] at hb
          subst hb
          omega

theorem buildPartialWeek_ok {today : Int} {now : Nat} {text : String}
    {sa : StructureAnalysis} {ai : AcademyInfo} {weekNum : Nat} {ws : WeekSession}
    (h : buildPartialWeek today now text sa ai weekNum = .ok ws) :
    ws.weekNumber = weekNum ∧ ws.totalDuration = sumDurations ws.dailySessions := by
  simp only [buildPartialWeek] at h
  split at h
  · exact absurd h (by simp)
  · obtain rfl : _ = ws := by simpa using h
    exact ⟨rfl, rfl⟩

/-! ## Common concrete inputs used by witnesses and counterexamples -/

def aiW : AcademyInfo :=
  { academyName := "Training Academy", sport := "soccer", ageGroup := "Youth",
    program := "Training Program", location := "Training Facility",
    difficulty := "intermediate" }

def daW : DurationAnalysis := { hasDurationInfo := false, averageDuration := 0 }

def docW : Document := { id := "doc-1" }

def planW : TrainingPlan :=
  { id := "plan-1", title := "", category := "", difficulty := "", academyName := "" }

/-! ## Claim theorems -/

/-- C4: for every `weekNumber ≥ 1` and every valid lowercase weekday name,
`calculateSessionDate(weekNumber, dayName)` returns a date whose weekday
(Sunday = 0 .. Saturday = 6) equals the index of `dayName` in the weekday
array, and which is never earlier than today plus `(weekNumber − 1) * 7`
days. -/
theorem calculateSessionDate_weekday_and_lower_bound (today : Int) (weekNumber : Nat)
    (dayName : String) (h1 : 1 ≤ weekNumber) (h2 : dayName ∈ sessionDayNames) :
    jsGetDay (calculateSessionDate today weekNumber dayName) = dayIndexOf dayName ∧
      today + ((weekNumber : Int) - 1) * 7 ≤ calculateSessionDate today weekNumber dayName := by
  have hidx : 0 ≤ dayIndexOf dayName ∧ dayIndexOf dayName < 7 := by
    simp only [sessionDayNames, List.mem_cons, List.not_mem_nil, or_false] at h2
    rcases h2 with rfl | rfl | rfl | rfl | rfl | rfl | rfl <;> exact ⟨by decide, by decide⟩
  obtain ⟨hlo, hhi⟩ := hidx
  simp only [calculateSessionDate, jsGetDay]
  generalize today + ((weekNumber : Int) - 1) * 7 = t
  generalize hcd : (t + 4) % 7 = cd
  have hcd0 : 0 ≤ cd := hcd ▸ Int.emod_nonneg _ (by norm_num)
  have hcd7 : cd < 7 := hcd ▸ Int.emod_lt_of_pos _ (by norm_num)
  generalize hda : (dayIndexOf dayName - cd + 7) % 7 = dA
  have hda0 : 0 ≤ dA := hda ▸ Int.emod_nonneg _ (by norm_num)
  have hda7 : dA < 7 := hda ▸ Int.emod_lt_of_pos _ (by norm_num)
  constructor
  · omega
  · omega

/-- C4 witness: the theorem applied at `today = 0` (a Thursday),
week 1, `'monday'`. -/
theorem calculateSessionDate_weekday_and_lower_bound_witness :
    jsGetDay (calculateSessionDate 0 1 "monday") = dayIndexOf "monday" ∧
      (0 : Int) + ((1 : Nat) - 1 : Int) * 7 ≤ calculateSessionDate 0 1 "monday" :=
  calculateSessionDate_weekday_and_lower_bound 0 1 "monday" (by decide) (by decide)

/-- C8: the Strategy Dispatcher's selection is a pure function of
`organizationLevel.level`, `weekStructure.totalWeeks` and
`sessionStructure.hasStructuredSessions`: two analyses agreeing on those
three fields select the same strategy. -/
theorem selectStrategy_pure_function_of_three_fields (sa₁ sa₂ : StructureAnalysis)
    (hlvl : sa₁.organizationLevel.map (fun ol => ol.level) =
      sa₂.organizationLevel.map (fun ol => ol.level))
    (hweeks : sa₁.weekStructure.totalWeeks = sa₂.weekStructure.totalWeeks)
    (hsess : sa₁.sessionStructure.hasStructuredSessions =
      sa₂.sessionStructure.hasStructuredSessions) :
    selectStrategy sa₁ = selectStrategy sa₂ := by
  unfold selectStrategy
  cases h₁ : sa₁.organizationLevel with
  | none =>
    cases h₂ : sa₂.organizationLevel with
    | none => rfl
    | some ol₂ => rw [h₁, h₂] at hlvl; simp at hlvl
  | some ol₁ =>
    cases h₂ : sa₂.organizationLevel with
    | none => rw [h₁, h₂] at hlvl; simp at hlvl
    | some ol₂ =>
      rw [h₁, h₂] at hlvl
      simp only [Option.map_some', Option.some.injEq] at hlvl
      dsimp only
      rw [hlvl, hweeks, hsess]

def saC8a : StructureAnalysis :=
  { organizationLevel := some { level := "moderately_structured", score := 6 },
    weekStructure := { totalWeeks := 3, identifiedWeeks := [1, 3], weekTitles := [] },
    dayStructure := { identifiedDays := ["monday"] },
    sessionStructure :=
      { hasStructuredSessions := false, totalSessions := 0, sessionDetails := [] },
    durationAnalysis := { hasDurationInfo := true, averageDuration := 60 },
    documentType := "curriculum" }

def saC8b : StructureAnalysis :=
  { organizationLevel := some { level := "moderately_structured", score := 9 },
    weekStructure := { totalWeeks := 3, identifiedWeeks := [], weekTitles := [] },
    dayStructure := { identifiedDays := [] },
    sessionStructure :=
      { hasStructuredSessions := false, totalSessions := 7,
        sessionDetails := [{ text := "x", type := "technical" }] },
    durationAnalysis := { hasDurationInfo := false, averageDuration := 0 },
    documentType := "" }

/-- C8 witness: two analyses equal on the three inspected fields but
different everywhere else select the same strategy. -/
theorem selectStrategy_pure_function_witness : selectStrategy saC8a = selectStrategy saC8b :=
  selectStrategy_pure_function_of_three_fields saC8a saC8b rfl rfl rfl

/-- C9: `extractAcademyInfo` is a total function (no operation in it can
throw), and every field that the text scan leaves unmatched falls back, in
order, to the plan metadata and then to the hard default: `academyName` to
`plan.academyName`, `plan.title`, `'Training Academy'`; `sport` to
`plan.category`, `'soccer'`; `ageGroup` directly to `'Youth'` (the plan
record carries no age group); `difficulty` (never scanned from text) to
`plan.difficulty`, `'intermediate'`. -/
theorem extractAcademyInfo_total_with_fallback_chain (text : String)
    (plan : TrainingPlan) (sa : Option StructureAnalysis)
    (hacad : findAcademyInLines ((splitLines text).take 20) = "")
    (hsport : sportScan text = none) (hage : ageScan text = none) :
    (extractAcademyInfo text plan sa).academyName =
        jsOr plan.academyName (jsOr plan.title "Training Academy") ∧
      (extractAcademyInfo text plan sa).sport = jsOr plan.category "soccer" ∧
      (extractAcademyInfo text plan sa).ageGroup = "Youth" ∧
      (extractAcademyInfo text plan sa).difficulty = jsOr plan.difficulty "intermediate" := by
  simp only [extractAcademyInfo, hacad, hsport, hage]
  simp [jsOr]

/-- C9 witness: the empty document with empty plan metadata yields every
hard default. -/
theorem extractAcademyInfo_total_with_fallback_chain_witness :
    (extractAcademyInfo "" planW none).academyName =
        jsOr planW.academyName (jsOr planW.title "Training Academy") ∧
      (extractAcademyInfo "" planW none).sport = jsOr planW.category "soccer" ∧
      (extractAcademyInfo "" planW none).ageGroup = "Youth" ∧
      (extractAcademyInfo "" planW none).difficulty = jsOr planW.difficulty "intermediate" :=
  extractAcademyInfo_total_with_fallback_chain "" planW none (by decide) (by decide)
    (by decide)

def sectionC5 : WeekSection :=
  { weekNumber := 1, title := "Week 1", content := "Week 1\nrest and recovery",
    startPosition := 0, endPosition := 23 }

/-- C5: the zero-marker fallback of Strategy A is broken, in two ways.
First, on a week section whose content holds no day marker (here
`"Week 1\nrest and recovery"`), `extractDailySessionsFromWeekSection`
raises a TypeError instead of returning a session: the fallback call
`createGeneralWeekSession(weekSection, weekNumber, academyInfo)` hands the
section's String content to the effective array-typed `extractActivities`
(`content.forEach` on a string). Second, even on its intended array-shaped
input, `createGeneralWeekSession` treats its second parameter as a 0-based
`weekIndex` and labels the session `weekIndex + 1`, so the 1-based week
number that `extractDailySessionsFromWeekSection` passes would yield a
session labelled with the following week (here week 2 for section 1),
not the section's week number as the claim (and the code's own
`// create a general week session` comment, and the parallel
`extractWeeklySessions` caller which passes a 0-based index) intends. -/
theorem strategyA_zero_marker_fallback_is_bugged :
    extractDailySessionsFromWeekSection sectionC5 1 aiW daW = .error .typeError ∧
      (createGeneralWeekSession 0 0
        { title := "Week 1", content := ["Week 1", "rest and recovery"] } 1 aiW).weekNumber = 2 :=
  ⟨rfl, rfl⟩

def saA_emptyTitles : StructureAnalysis :=
  { organizationLevel := some { level := "highly_structured", score := 10 },
    weekStructure :=
      { totalWeeks := 5, identifiedWeeks := [1, 2, 3, 4, 5], weekTitles := [] },
    dayStructure := { identifiedDays := [] },
    sessionStructure :=
      { hasStructuredSessions := false, totalSessions := 0, sessionDetails := [] },
    durationAnalysis := { hasDurationInfo := false, averageDuration := 0 },
    documentType := "" }

/-- C2 counterexample: for a `highly_structured` analysis whose
`weekStructure.weekTitles` is empty, Strategy A's section loop never runs
and the dispatcher returns the empty week list — not a non-empty one as
the claim states. -/
theorem strategyA_empty_weekTitles_returns_empty_list :
    extractSessionsWithStructureAwareness 0 0 "Week 1\nMonday passing drills"
      saA_emptyTitles aiW = .ok [] := rfl

/-- C2 (amended): the non-emptiness guarantee holds on the Strategy D
paths — for every analysis whose `organizationLevel.level` is neither
`highly_structured` nor `moderately_structured` (i.e. `basic_structure`
and every unrecognized level including the analyzer-failure fallback), the
dispatched strategy returns at least one WeekSession, each with at least
one DailySession. It fails for Strategy A, whose week list is one entry
per analyzer week title (empty `weekTitles` give the empty list). -/
theorem dispatch_nonempty_for_basic_and_unrecognized (today : Int) (now : Nat)
    (text : String) (sa : StructureAnalysis) (ai : AcademyInfo)
    (ol : OrganizationLevel) (hol : sa.organizationLevel = some ol)
    (h1 : ol.level ≠ "highly_structured") (h2 : ol.level ≠ "moderately_structured") :
    ∃ l, extractSessionsWithStructureAwareness today now text sa ai = .ok l ∧
      l ≠ [] ∧ ∀ w ∈ l, w.dailySessions ≠ [] := by
  unfold extractSessionsWithStructureAwareness
  rw [hol]
  dsimp only
  by_cases h3 : ol.level = "basic_structure"
  · rw [if_neg h1, if_neg h2, if_pos h3]
    refine ⟨_, rfl, ?_, ?_⟩
    · have hn : 1 ≤ jsOrNat sa.weekStructure.totalWeeks 8 := by
        unfold jsOrNat; split <;> omega
      intro hc
      have := congrArg List.length hc
      simp [extractFromBasicStructuredDocument] at this
      omega
    · intro w hw
      simp only [extractFromBasicStructuredDocument, List.mem_map] at hw
      obtain ⟨weekNum, _, rfl⟩ := hw
      simp [generateDefaultWeekSessions]
  · rw [if_neg h1, if_neg h2, if_neg h3]
    refine ⟨_, rfl, ?_, ?_⟩
    · intro hc
      have := congrArg List.length hc
      simp [extractFromUnstructuredDocument] at this
    · intro w hw
      simp only [extractFromUnstructuredDocument, List.mem_map] at hw
      obtain ⟨weekNum, _, rfl⟩ := hw
      simp

def saBasicW : StructureAnalysis :=
  { organizationLevel := some { level := "basic_structure", score := 4 },
    weekStructure := { totalWeeks := 2, identifiedWeeks := [], weekTitles := [] },
    dayStructure := { identifiedDays := [] },
    sessionStructure :=
      { hasStructuredSessions := false, totalSessions := 0, sessionDetails := [] },
    durationAnalysis := { hasDurationInfo := false, averageDuration := 0 },
    documentType := "" }

/-- C2 witness: the amended theorem applied to a concrete
`basic_structure` analysis. -/
theorem dispatch_nonempty_for_basic_and_unrecognized_witness :
    ∃ l, extractSessionsWithStructureAwareness 0 0 "" saBasicW aiW = .ok l ∧
      l ≠ [] ∧ ∀ w ∈ l, w.dailySessions ≠ [] :=
  dispatch_nonempty_for_basic_and_unrecognized 0 0 "" saBasicW aiW
    { level := "basic_structure", score := 4 } rfl (by decide) (by decide)

def saNoOrgLevel : StructureAnalysis :=
  { organizationLevel := none,
    weekStructure := { totalWeeks := 0, identifiedWeeks := [], weekTitles := [] },
    dayStructure := { identifiedDays := [] },
    sessionStructure :=
      { hasStructuredSessions := false, totalSessions := 0, sessionDetails := [] },
    durationAnalysis := { hasDurationInfo := false, averageDuration := 0 },
    documentType := "" }

/-- C1 counterexample: when the structure-analysis collaborator throws,
`extractSessionsFromDocument` does not fall back to the unstructured
strategy — the outer catch rewraps the error with the
`'Enhanced Session Extraction'` context and re-throws it (first
conjunct). The same happens for a malformed shape with no
`organizationLevel`: the dispatcher's property access on `undefined`
raises a TypeError, which is likewise rewrapped and re-thrown (second
conjunct). In neither case is any ExtractionResult (let alone one with
`totalWeeks = 4`) returned. -/
theorem analyzer_failure_is_rethrown_not_recovered :
    extractSessionsFromDocument 0 0 docW planW (.ok "")
        (fun _ => .error (.jsError "structure analysis failed"))
        (fun _ => .error (.jsError "ai unavailable")) (.error (.jsError "sched off")) =
      .error (.platform "Enhanced Session Extraction"
        (.jsError "structure analysis failed")) ∧
      extractSessionsFromDocument 0 0 docW planW (.ok "")
          (fun _ => .ok saNoOrgLevel)
          (fun _ => .error (.jsError "ai unavailable")) (.error (.jsError "sched off")) =
        .error (.platform "Enhanced Session Extraction" .typeError) :=
  ⟨rfl, rfl⟩

/-- C1 (amended): the unstructured terminal fallback applies exactly when
the analyzer call succeeds and returns a shape whose `organizationLevel`
object exists but whose `level` is none of the three recognized values;
then (with the optional enhancement collaborator failing/bypassed, under
which the baseline sessions pass through unchanged)
`extractSessionsFromDocument` returns an ExtractionResult with
`totalWeeks = 4` and the default Monday/Wednesday/Friday 90-minute
pattern in every week. When the analyzer itself throws (or the shape lacks
`organizationLevel` entirely) the error is instead rewrapped and re-thrown
(see the counterexample). -/
theorem pipeline_unstructured_fallback_for_unrecognized_level (today : Int)
    (now : Nat) (document : Document) (trainingPlan : TrainingPlan) (text : String)
    (sa : StructureAnalysis) (ol : OrganizationLevel)
    (enhance : List WeekSession → Except JsError (List WeekSession))
    (sched : Except JsError (Option String))
    (hol : sa.organizationLevel = some ol)
    (h1 : ol.level ≠ "highly_structured") (h2 : ol.level ≠ "moderately_structured")
    (h3 : ol.level ≠ "basic_structure")
    (henh : ∀ s, (enhance s).isOk = false) :
    ∃ r, extractSessionsFromDocument today now document trainingPlan (.ok text)
        (fun _ => .ok sa) enhance sched = .ok r ∧
      r.totalWeeks = 4 ∧
      ∀ w ∈ r.sessions,
        w.dailySessions.map (fun d => d.day) = ["monday", "wednesday", "friday"] ∧
          ∀ d ∈ w.dailySessions, d.duration = 90 := by
  unfold extractSessionsFromDocument
  simp only [extractSessionsWithStructureAwareness, hol, if_neg h1, if_neg h2, if_neg h3]
  have hE := henh (extractFromUnstructuredDocument today now text sa
    (extractAcademyInfo text trainingPlan (some sa)))
  cases hEq : enhance (extractFromUnstructuredDocument today now text sa
      (extractAcademyInfo text trainingPlan (some sa))) with
  | ok es => rw [hEq] at hE; simp [Except.isOk, Except.toBool] at hE
  | error e =>
    dsimp only
    refine ⟨_, rfl, ?_, ?_⟩
    · simp [extractFromUnstructuredDocument]
    · intro w hw
      simp only [extractFromUnstructuredDocument, List.mem_map] at hw
      obtain ⟨weekNum, _, rfl⟩ := hw
      constructor
      · rfl
      · intro d hd
        simp only [List.mem_cons, List.not_mem_nil, or_false] at hd
        rcases hd with rfl | rfl | rfl <;> rfl

def saUnrecW : StructureAnalysis :=
  { organizationLevel := some { level := "", score := 0 },
    weekStructure := { totalWeeks := 0, identifiedWeeks := [], weekTitles := [] },
    dayStructure := { identifiedDays := [] },
    sessionStructure :=
      { hasStructuredSessions := false, totalSessions := 0, sessionDetails := [] },
    durationAnalysis := { hasDurationInfo := false, averageDuration := 0 },
    documentType := "" }

/-- C1 witness: the amended theorem at a concrete unrecognized level with
a failing enhancement collaborator. -/
theorem pipeline_unstructured_fallback_witness :
    ∃ r, extractSessionsFromDocument 0 0 docW planW (.ok "")
        (fun _ => .ok saUnrecW) (fun _ => .error (.jsError "ai off"))
        (.error (.jsError "sched off")) = .ok r ∧
      r.totalWeeks = 4 ∧
      ∀ w ∈ r.sessions,
        w.dailySessions.map (fun d => d.day) = ["monday", "wednesday", "friday"] ∧
          ∀ d ∈ w.dailySessions, d.duration = 90 :=
  pipeline_unstructured_fallback_for_unrecognized_level 0 0 docW planW ""
    saUnrecW { level := "", score := 0 } (fun _ => .error (.jsError "ai off"))
    (.error (.jsError "sched off")) rfl (by decide) (by decide) (by decide)
    (fun _ => rfl)

theorem map_of_eq_self {α : Type} {f : α → α} (h : ∀ a, f a = a) :
    ∀ l : List α, l.map f = l := by
  intro l
  induction l with
  | nil => rfl
  | cons a as ih => simp only [List.map_cons, h a, ih]

theorem map_weekNumber_sessionStructure (today : Int) (now : Nat) (text : String)
    (sa : StructureAnalysis) (ai : AcademyInfo) :
    (extractWithSessionStructure today now text sa ai).map (fun w => w.weekNumber) =
      List.range' 1 ((sa.sessionStructure.totalSessions + 2) / 3) := by
  simp only [extractWithSessionStructure, List.map_map]
  exact map_of_eq_self (fun a => rfl) _

theorem map_weekNumber_basicStructure (today : Int) (now : Nat) (text : String)
    (sa : StructureAnalysis) (ai : AcademyInfo) :
    (extractFromBasicStructuredDocument today now text sa ai).map
        (fun w => w.weekNumber) =
      List.range' 1 (jsOrNat sa.weekStructure.totalWeeks 8) := by
  simp only [extractFromBasicStructuredDocument, List.map_map]
  exact map_of_eq_self (fun a => rfl) _

theorem map_weekNumber_unstructured (today : Int) (now : Nat) (text : String)
    (sa : StructureAnalysis) (ai : AcademyInfo) :
    (extractFromUnstructuredDocument today now text sa ai).map
        (fun w => w.weekNumber) = List.range' 1 4 := by
  simp only [extractFromUnstructuredDocument, List.map_map]
  exact map_of_eq_self (fun a => rfl) _

/-- C3: every WeekSession that any dispatched strategy actually returns,
and every WeekSession of the alternative-week extraction path, satisfies
`totalDuration = sum of its daily sessions' durations`. (Strategy A only
ever returns the empty list — any section makes it throw — so the
invariant holds vacuously there; the Strategy D' weeks carry the literal
270, which equals the three 90-minute defaults; the alternative path's
literal 120 equals its single 120-minute general session.) -/
theorem weekSession_totalDuration_consistent (today : Int) (now : Nat)
    (text : String) (sa : StructureAnalysis) (ai : AcademyInfo) :
    (∀ l, extractSessionsWithStructureAwareness today now text sa ai = .ok l →
      ∀ w ∈ l, w.totalDuration = sumDurations w.dailySessions) ∧
    ∀ w ∈ attemptAlternativeWeekExtraction today now text ai,
      w.totalDuration = sumDurations w.dailySessions := by
  constructor
  · intro l hl w hw
    unfold extractSessionsWithStructureAwareness at hl
    cases hOL : sa.organizationLevel with
    | none => rw [hOL] at hl; exact absurd hl (by simp)
    | some ol =>
      rw [hOL] at hl
      dsimp only at hl
      by_cases hA : ol.level = "highly_structured"
      · rw [if_pos hA] at hl
        simp only [extractFromHighlyStructuredDocument] at hl
        have hF := mapE_ok_forall₂ hl
        obtain ⟨a, _, hfa⟩ := forall₂_mem_right hF w hw
        exact absurd hfa (by simp [strategyAWeekBuild])
      · rw [if_neg hA] at hl
        by_cases hM : ol.level = "moderately_structured"
        · rw [if_pos hM] at hl
          unfold extractFromModeratelyStructuredDocument at hl
          by_cases hW : sa.weekStructure.totalWeeks > 0
          · rw [if_pos hW] at hl
            simp only [extractWithPartialWeekStructure] at hl
            have hF := mapE_ok_forall₂ hl
            obtain ⟨n, _, hbw⟩ := forall₂_mem_right hF w hw
            exact (buildPartialWeek_ok hbw).2
          · rw [if_neg hW] at hl
            by_cases hS : sa.sessionStructure.hasStructuredSessions = true
            · rw [if_pos hS] at hl
              obtain rfl : _ = l := by simpa using hl
              simp only [extractWithSessionStructure, List.mem_map] at hw
              obtain ⟨weekNum, _, rfl⟩ := hw
              rfl
            · rw [if_neg hS] at hl
              obtain rfl : _ = l := by simpa using hl
              simp only [extractFromBasicStructuredDocument, List.mem_map] at hw
              obtain ⟨weekNum, _, rfl⟩ := hw
              rfl
        · rw [if_neg hM] at hl
          by_cases hB : ol.level = "basic_structure"
          · rw [if_pos hB] at hl
            obtain rfl : _ = l := by simpa using hl
            simp only [extractFromBasicStructuredDocument, List.mem_map] at hw
            obtain ⟨weekNum, _, rfl⟩ := hw
            rfl
          · rw [if_neg hB] at hl
            obtain rfl : _ = l := by simpa using hl
            simp only [extractFromUnstructuredDocument, List.mem_map] at hw
            obtain ⟨weekNum, _, rfl⟩ := hw
            rfl
  · intro w hw
    simp only [attemptAlternativeWeekExtraction, List.mem_map] at hw
    obtain ⟨p, _, rfl⟩ := hw
    rfl

def wNil : WeekSession :=
  { id := "", weekNumber := 0, title := "", description := "", dailySessions := [],
    totalDuration := 0, focus := [], notes := none, academyName := "", sport := "",
    weekSchedule := none }

def lC3 : List WeekSession :=
  match extractSessionsWithStructureAwareness 0 0 "" saUnrecW aiW with
  | .ok l => l
  | .error _ => []

/-- C3 witness: the duration invariant evaluated on the first week of a
concrete terminal-fallback run. -/
theorem weekSession_totalDuration_consistent_witness :
    (lC3.headD wNil).totalDuration = sumDurations (lC3.headD wNil).dailySessions :=
  (weekSession_totalDuration_consistent 0 0 "" saUnrecW aiW).1 lC3 rfl
    (lC3.headD wNil) (by decide)

/-- C7: every list of WeekSessions that the Strategy Dispatcher actually
returns has strictly increasing `weekNumber`s. Strategies B, C and D
number their weeks 1..n consecutively. Strategy A only ever returns the
empty list (any week section makes its builder throw before a WeekSession
is produced), so the property holds vacuously for it; the claim's
description of A's weekNumber source (`identifiedWeeks[i] || i + 1` over
the position-sorted week titles) concerns values that never reach a
returned list. -/
theorem dispatch_weekNumbers_strictly_increasing (today : Int) (now : Nat)
    (text : String) (sa : StructureAnalysis) (ai : AcademyInfo)
    (l : List WeekSession)
    (h : extractSessionsWithStructureAwareness today now text sa ai = .ok l) :
    List.Chain' (fun a b => a.weekNumber < b.weekNumber) l := by
  unfold extractSessionsWithStructureAwareness at h
  cases hOL : sa.organizationLevel with
  | none => rw [hOL] at h; exact absurd h (by simp)
  | some ol =>
    rw [hOL] at h
    dsimp only at h
    by_cases hA : ol.level = "highly_structured"
    · rw [if_pos hA] at h
      simp only [extractFromHighlyStructuredDocument] at h
      have hF := mapE_ok_forall₂ h
      cases l with
      | nil => exact List.chain'_nil
      | cons b bs =>
        obtain ⟨a, _, hfa⟩ := forall₂_mem_right hF b (List.mem_cons_self _ _)
        exact absurd hfa (by simp [strategyAWeekBuild])
    · rw [if_neg hA] at h
      by_cases hM : ol.level = "moderately_structured"
      · rw [if_pos hM] at h
        unfold extractFromModeratelyStructuredDocument at h
        by_cases hW : sa.weekStructure.totalWeeks > 0
        · rw [if_pos hW] at h
          simp only [extractWithPartialWeekStructure] at h
          have hF := mapE_ok_forall₂ h
          exact chain'_weekNumber_of_map_range'
            (map_weekNumber_of_forall₂ (fun n w hw => (buildPartialWeek_ok hw).1) hF)
        · rw [if_neg hW] at h
          by_cases hS : sa.sessionStructure.hasStructuredSessions = true
          · rw [if_pos hS] at h
            obtain rfl : _ = l := by simpa using h
            exact chain'_weekNumber_of_map_range'
              (map_weekNumber_sessionStructure today now text sa ai)
          · rw [if_neg hS] at h
            obtain rfl : _ = l := by simpa using h
            exact chain'_weekNumber_of_map_range'
              (map_weekNumber_basicStructure today now text sa ai)
      · rw [if_neg hM] at h
        by_cases hB : ol.level = "basic_structure"
        · rw [if_pos hB] at h
          obtain rfl : _ = l := by simpa using h
          exact chain'_weekNumber_of_map_range'
            (map_weekNumber_basicStructure today now text sa ai)
        · rw [if_neg hB] at h
          obtain rfl : _ = l := by simpa using h
          exact chain'_weekNumber_of_map_range'
            (map_weekNumber_unstructured today now text sa ai)

def lC7 : List WeekSession :=
  match extractSessionsWithStructureAwareness 0 0 "" saBasicW aiW with
  | .ok l => l
  | .error _ => []

/-- C7 witness: strict weekNumber monotonicity on a concrete
`basic_structure` run (two weeks). -/
theorem dispatch_weekNumbers_strictly_increasing_witness :
    List.Chain' (fun a b => a.weekNumber < b.weekNumber) lC7 :=
  dispatch_weekNumbers_strictly_increasing 0 0 "" saBasicW aiW lC7 rfl

/-- C6: Strategy C produces `ceil(totalSessions / 3)` weeks (on `Nat`,
`(totalSessions + 2) / 3`), grouping the analyzer's `sessionDetails` into
consecutive batches of (at most) 3 — the session at position `i` of week
`w` is `sessionDetails[(w.weekNumber − 1) * 3 + i]` — and every produced
DailySession has duration 90, time `08:00`, and its day assigned by its
position in the week from the fixed rotation
monday, wednesday, friday, tuesday, thursday, saturday, sunday. -/
theorem extractWithSessionStructure_batches (today : Int) (now : Nat)
    (text : String) (sa : StructureAnalysis) (ai : AcademyInfo) :
    (extractWithSessionStructure today now text sa ai).length =
        (sa.sessionStructure.totalSessions + 2) / 3 ∧
      ∀ w ∈ extractWithSessionStructure today now text sa ai,
        w.dailySessions.length ≤ 3 ∧
          ∀ i ds, w.dailySessions[i]? = some ds →
            ds.duration = 90 ∧ ds.time = "08:00" ∧ ds.dayNumber = i + 1 ∧
              ds.day = ["monday", "wednesday", "friday", "tuesday", "thursday",
                "saturday", "sunday"].getD i "monday" ∧
              sa.sessionStructure.sessionDetails[(w.weekNumber - 1) * 3 + i]? =
                some { text := ds.rawContent, type := ds.type } := by
  constructor
  · simp [extractWithSessionStructure]
  · intro w hw
    simp only [extractWithSessionStructure, List.mem_map] at hw
    obtain ⟨weekNum, hmem, rfl⟩ := hw
    constructor
    · simp only [List.length_map, List.enum_length, List.length_take]
      omega
    · intro i ds hd
      simp only [List.getElem?_map, List.getElem?_enum, List.getElem?_take,
        List.getElem?_drop, Option.map_map] at hd
      split at hd
      · cases hdet : sa.sessionStructure.sessionDetails[(weekNum - 1) * 3 + i]? with
        | none => rw [hdet] at hd; exact absurd hd (by simp)
        | some detail =>
          rw [hdet] at hd
          simp only [Option.map_some', Option.some.injEq, Function.comp] at hd
          subst hd
          exact ⟨rfl, rfl, rfl, rfl, rfl⟩
      · exact absurd hd (by simp)

def saC6 : StructureAnalysis :=
  { organizationLevel := some { level := "moderately_structured", score := 6 },
    weekStructure := { totalWeeks := 0, identifiedWeeks := [], weekTitles := [] },
    dayStructure := { identifiedDays := [] },
    sessionStructure :=
      { hasStructuredSessions := true, totalSessions := 4,
        sessionDetails := [{ text := "passing drill", type := "technical" },
          { text := "pressing shape", type := "tactical" },
          { text := "sprint work", type := "conditioning" },
          { text := "small-sided game", type := "match" }] },
    durationAnalysis := { hasDurationInfo := false, averageDuration := 0 },
    documentType := "" }

def dNil : DailySession :=
  { id := "", weekNumber := 0, dayNumber := 0, title := "", day := "", date := 0,
    time := "", duration := 0, location := "", type := "", participants := 0,
    status := "", academyName := "", sport := "", ageGroup := "", difficulty := "",
    activities := [], drills := none, objectives := none, equipment := none,
    notes := none, rawContent := "", documentContent := none, completionRate := none,
    focus := [], week := none, weekDescription := none }

def lC6 : List WeekSession := extractWithSessionStructure 0 0 "" saC6 aiW

def dsC6 : DailySession := ((lC6.headD wNil).dailySessions).headD dNil

/-- C6 witness: four analyzer sessions give two weeks; the first session
of week 1 sits on Monday at 08:00 for 90 minutes. -/
theorem extractWithSessionStructure_batches_witness :
    lC6.length = (saC6.sessionStructure.totalSessions + 2) / 3 ∧
      (lC6.headD wNil).dailySessions.length ≤ 3 ∧
      dsC6.duration = 90 ∧ dsC6.time = "08:00" ∧ dsC6.dayNumber = 0 + 1 ∧
      dsC6.day = ["monday", "wednesday", "friday", "tuesday", "thursday",
        "saturday", "sunday"].getD 0 "monday" := by
  obtain ⟨h1, h2⟩ := extractWithSessionStructure_batches 0 0 "" saC6 aiW
  have hne : lC6 ≠ [] := by decide
  have hmem : lC6.headD wNil ∈ lC6 := by
    cases hl : lC6 with
    | nil => exact absurd hl hne
    | cons a as => simp
  have h3 := h2 (lC6.headD wNil) hmem
  have h4 := h3.2 0 dsC6 (by rfl)
  exact ⟨h1, h3.1, h4.1, h4.2.1, h4.2.2.1, h4.2.2.2.1⟩

instance : IsTotal UpcomingSession (fun a b => a.date ≤ b.date) :=
  ⟨fun a b => le_total a.date b.date⟩

instance : IsTrans UpcomingSession (fun a b => a.date ≤ b.date) :=
  ⟨fun _ _ _ hab hbc => le_trans hab hbc⟩

/-- C10: `convertToUpcomingSessions` returns exactly one entry per daily
session of every week (its length is the sum of the `dailySessions`
lengths), in ascending order of `date`, and every entry is the conversion
of some stored daily session, with its `date` recomputed by
`calculateSessionDate(week.weekNumber, session.day)` rather than copied
from the stored `session.date`. -/
theorem convertToUpcomingSessions_flatten_sort_recompute (today : Int)
    (ed : ExtractionResult) :
    (convertToUpcomingSessions today ed).length =
        (ed.sessions.map (fun w => w.dailySessions.length)).sum ∧
      List.Pairwise (fun a b => a.date ≤ b.date) (convertToUpcomingSessions today ed) ∧
      ∀ e ∈ convertToUpcomingSessions today ed, ∃ w ∈ ed.sessions,
        ∃ s ∈ w.dailySessions, e = toUpcomingSession today ed w s ∧
          e.date = calculateSessionDate today w.weekNumber s.day := by
  refine ⟨?_, ?_, ?_⟩
  · unfold convertToUpcomingSessions
    rw [(List.perm_insertionSort _ _).length_eq]
    simp only [List.length_flatMap, List.length_map, Function.comp_def]
  · exact List.sorted_insertionSort _ _
  · intro e he
    unfold convertToUpcomingSessions at he
    rw [(List.perm_insertionSort _ _).mem_iff] at he
    simp only [List.mem_flatMap, List.mem_map] at he
    obtain ⟨w, hw, s, hs, rfl⟩ := he
    exact ⟨w, hw, s, hs, rfl, rfl⟩

def uNil : UpcomingSession :=
  { id := "", title := "", time := "", duration := 0, date := 0, location := "",
    type := "", participants := 0, status := "", academyName := "", sport := "",
    ageGroup := "", difficulty := "", completionRate := none, notes := none,
    activities := [], drills := none, objectives := none, equipment := none,
    focus := [], weekNumber := 0, dayNumber := 0, rawContent := "",
    sourceDocument := "", sourcePlan := "" }

def edC10 : ExtractionResult :=
  { academyInfo := aiW,
    sessions := attemptAlternativeWeekExtraction 0 0 "Week 2 drills Week 1 more" aiW,
    optimizedSchedule := none, structureAnalysis := saUnrecW, totalWeeks := 2,
    totalSessions := 2, extractedAt := 0, sourceDocument := "doc-1",
    sourcePlan := "plan-1", aiEnhanced := false, aiScheduled := false,
    structureAware := true }

/-- C10 witness: a concrete two-week extraction (stored out of week order)
flattens to two entries, sorted by date, the first being the recomputed
conversion of a stored session. -/
theorem convertToUpcomingSessions_witness :
    (convertToUpcomingSessions 0 edC10).length =
        (edC10.sessions.map (fun w => w.dailySessions.length)).sum ∧
      List.Pairwise (fun a b => a.date ≤ b.date) (convertToUpcomingSessions 0 edC10) ∧
      ∃ w ∈ edC10.sessions, ∃ s ∈ w.dailySessions,
        (convertToUpcomingSessions 0 edC10).headD uNil = toUpcomingSession 0 edC10 w s ∧
          ((convertToUpcomingSessions 0 edC10).headD uNil).date =
            calculateSessionDate 0 w.weekNumber s.day :=
  ⟨(convertToUpcomingSessions_flatten_sort_recompute 0 edC10).1,
   (convertToUpcomingSessions_flatten_sort_recompute 0 edC10).2.1,
   (convertToUpcomingSessions_flatten_sort_recompute 0 edC10).2.2
     ((convertToUpcomingSessions 0 edC10).headD uNil) (by
      have hne : convertToUpcomingSessions 0 edC10 ≠ [] := by decide
      cases hl : convertToUpcomingSessions 0 edC10 with
      | nil => exact absurd hl hne
      | cons a as => simp)⟩
